import Mathlib

/-!
# Verification of the hybrid natural-language book-search pipeline

A shallow embedding of the search core of the `book-management-api`
repository, together with theorems settling the frozen claims C1–C10.

Conventions of the embedding:

* Python strings are Lean `String`s (all data of interest is ASCII, so
  `String.toLower`/`String.toUpper` agree with Python `str.lower`/`str.upper`).
* Python floats are modelled as exact fractions (`Frac`); the thresholds
  0.65, 0.6, 0.75, 0.4, 0.8 are the corresponding rationals.
* Library routines from the Python standard library that the repository
  calls (`difflib.SequenceMatcher`, `difflib.get_close_matches`) are
  re-implemented here faithfully, specialised to the junk-free character
  sequences the repository uses.
* `base64`/`json` serialisation of cursors is treated as the identity
  layer between a token and its decoded JSON payload: cursors are
  modelled at the level of the decoded payload (`Except String Json`),
  matching `json.loads(base64.b64decode(tok))`.
* Database rows are in-memory lists; `ORDER BY` is insertion sort with
  the ordering the source requests; `OFFSET`/`LIMIT` are `drop`/`take`.
-/

/-! ## String preliminaries (Python semantics) -/

/-- `listPrefixOf n h` : `n` is a prefix of `h`. -/
def listPrefixOf : List Char → List Char → Bool
  | [], _ => true
  | _ :: _, [] => false
  | c :: cs, d :: ds => c == d && listPrefixOf cs ds

/-- `listInfixOf n h` : `n` occurs contiguously inside `h`. -/
def listInfixOf (needle : List Char) : List Char → Bool
  | [] => listPrefixOf needle []
  | d :: ds => listPrefixOf needle (d :: ds) || listInfixOf needle ds

/-- Python `needle in hay` substring test, after both sides were lowercased
by the caller where the source lowercases. -/
def pyContains (hay needle : String) : Bool :=
  listInfixOf needle.toList hay.toList

/-- Python `str.lower()` (ASCII). -/
def pyLower (s : String) : String := String.mk (s.toList.map Char.toLower)

/-- Python `str.upper()` (ASCII). -/
def pyUpper (s : String) : String := String.mk (s.toList.map Char.toUpper)

/-- Python `str.strip()`: remove leading and trailing whitespace. -/
def pyStrip (s : String) : String :=
  String.mk (((s.toList.dropWhile Char.isWhitespace).reverse.dropWhile
    Char.isWhitespace).reverse)

/-- `s` starts with `pre`. -/
def pyStartsWith (s pre : String) : Bool := listPrefixOf pre.toList s.toList

/-- `s` ends with `suf`. -/
def pyEndsWith (s suf : String) : Bool := listPrefixOf suf.toList.reverse s.toList.reverse

/-- Drop the first `n` characters. -/
def pyDrop (s : String) (n : Nat) : String := String.mk (s.toList.drop n)

/-- Drop the last `n` characters. -/
def pyDropRight (s : String) (n : Nat) : String := String.mk (s.toList.take (s.toList.length - n))

/-- Code-point lexicographic comparison of character lists. -/
def listCharLt : List Char → List Char → Bool
  | [], [] => false
  | [], _ :: _ => true
  | _ :: _, [] => false
  | c :: cs, d :: ds =>
    decide (c.toNat < d.toNat) || (c == d && listCharLt cs ds)

/-- Python `a < b` on strings (code-point lexicographic). -/
def pyStrLt (a b : String) : Bool := listCharLt a.toList b.toList

/-- Case-insensitive containment, the semantics of SQL `col ILIKE '%pat%'`
on non-null text columns. -/
def ilikeContains (hay pat : String) : Bool :=
  pyContains (pyLower hay) (pyLower pat)

/-- Whitespace-run splitting accumulator. -/
def splitRunsAux : List Char → List Char → List String
  | acc, [] => if acc.isEmpty then [] else [String.mk acc.reverse]
  | acc, c :: cs =>
    if c.isWhitespace then
      if acc.isEmpty then splitRunsAux [] cs
      else String.mk acc.reverse :: splitRunsAux [] cs
    else splitRunsAux (c :: acc) cs

/-- Python `str.split()` with no argument: split on whitespace runs,
dropping empty tokens. -/
def pySplit (s : String) : List String := splitRunsAux [] s.toList

/-- The single-quote character (used when building SQL fragments). -/
def sqChar : Char := Char.ofNat 39

/-- The single-quote character as a string. -/
def sqStr : String := String.singleton sqChar

/-! ## Exact fractions

Python floats are modelled exactly.  `Rat` normalisation runs `Nat.gcd`,
which the kernel cannot evaluate, so scores are carried as unnormalised
fractions with positive denominators; `Frac.toRat` is the semantic view
used in proofs.  All values arising here are exact in IEEE-754 terms or
compared far from representation boundaries, so exact fractions model the
float comparisons of the source faithfully. -/

/-- An unnormalised fraction with a positive denominator. -/
structure Frac where
  num : Int
  den : Nat
  denPos : 0 < den
deriving DecidableEq, Repr

/-- Build a fraction (a non-positive denominator, never used, yields 0). -/
def fr (a : Int) (b : Nat) : Frac :=
  if h : 0 < b then ⟨a, b, h⟩ else ⟨0, 1, Nat.one_pos⟩

/-- Addition. -/
def Frac.add (x y : Frac) : Frac :=
  ⟨x.num * y.den + y.num * x.den, x.den * y.den, Nat.mul_pos x.denPos y.denPos⟩

/-- Subtraction. -/
def Frac.sub (x y : Frac) : Frac :=
  ⟨x.num * y.den - y.num * x.den, x.den * y.den, Nat.mul_pos x.denPos y.denPos⟩

/-- Multiplication. -/
def Frac.mul (x y : Frac) : Frac :=
  ⟨x.num * y.num, x.den * y.den, Nat.mul_pos x.denPos y.denPos⟩

/-- Division by a natural number (total; the zero case is unreachable at
every call site, mirroring guards in the source). -/
def Frac.divNat (x : Frac) (n : Nat) : Frac :=
  if h : 0 < n then ⟨x.num, x.den * n, Nat.mul_pos x.denPos h⟩ else ⟨0, 1, Nat.one_pos⟩

/-- Numeric `≤` by cross multiplication. -/
def Frac.leB (x y : Frac) : Bool := decide (x.num * (y.den : Int) ≤ y.num * (x.den : Int))

/-- Numeric `<`. -/
def Frac.ltB (x y : Frac) : Bool := decide (x.num * (y.den : Int) < y.num * (x.den : Int))

/-- Numeric equality. -/
def Frac.eqB (x y : Frac) : Bool := decide (x.num * (y.den : Int) = y.num * (x.den : Int))

/-- Numeric maximum (second argument on strict improvement only, like
Python `max`). -/
def Frac.fmax (x y : Frac) : Frac := if Frac.ltB x y then y else x

/-- Numeric minimum. -/
def Frac.fmin (x y : Frac) : Frac := if Frac.ltB x y then x else y

/-- The rational value of a fraction (proof-side view). -/
def Frac.toRat (x : Frac) : Rat := (x.num : Rat) / (x.den : Rat)

/-! ## difflib (Python standard library), junk-free case

`SequenceMatcher` with no junk and short sequences (autojunk never fires
below 200 elements, and all vocabulary strings in this repository are far
shorter).  `find_longest_match` then returns the longest matching block,
ties broken by the lexicographically first `(i, j)` end-cell in the scan
order of the dynamic program, and the junk-extension loops are no-ops. -/

/-- `suffLen a b i j` = length of the longest common suffix of
`a[0..i]` and `b[0..j]` (the `j2len` dynamic program of
`difflib.SequenceMatcher.find_longest_match`). -/
def suffLen (a b : List Char) : Nat → Nat → Nat
  | 0, j => if (a[0]?).isSome && a[0]? == b[j]? then 1 else 0
  | i+1, 0 => if (a[i+1]?).isSome && a[i+1]? == b[0]? then 1 else 0
  | i+1, j+1 => if (a[i+1]?).isSome && a[i+1]? == b[j+1]? then suffLen a b i j + 1 else 0

/-- Suffix length clipped to the window `[alo, _) × [blo, _)`. -/
def cellLen (a b : List Char) (alo blo i j : Nat) : Nat :=
  min (suffLen a b i j) (min (i - alo + 1) (j - blo + 1))

/-- All cells of the window, in the scan order of the dynamic program
(`i` ascending, then `j` ascending). -/
def windowCells (alo ahi blo bhi : Nat) : List (Nat × Nat) :=
  (List.range' alo (ahi - alo)).flatMap
    (fun i => (List.range' blo (bhi - blo)).map (fun j => (i, j)))

/-- `find_longest_match` on the window: the longest matching block, with
the first maximal end-cell in scan order (the strict-improvement update
rule of difblib); returns `(i, j, size)`. -/
def findLongestMatch (a b : List Char) (alo ahi blo bhi : Nat) : Nat × Nat × Nat :=
  let cells := windowCells alo ahi blo bhi
  let score := fun (p : Nat × Nat) => cellLen a b alo blo p.1 p.2
  let best := cells.foldl (fun acc p => max acc (score p)) 0
  if best = 0 then (alo, blo, 0)
  else
    match cells.find? (fun p => score p == best) with
    | some p => (p.1 + 1 - best, p.2 + 1 - best, best)
    | none => (alo, blo, 0)

/-- Total size of all matching blocks (`get_matching_blocks` recursion);
fuel-driven, with fuel at least the window perimeter so the genuine
recursion (which strictly shrinks the window) never exhausts it. -/
def matchingTotal (a b : List Char) : Nat → Nat → Nat → Nat → Nat → Nat
  | 0, _, _, _, _ => 0
  | fuel+1, alo, ahi, blo, bhi =>
    let r := findLongestMatch a b alo ahi blo bhi
    let i := r.1
    let j := r.2.1
    let k := r.2.2
    if k = 0 then 0
    else
      matchingTotal a b fuel alo i blo j + k + matchingTotal a b fuel (i+k) ahi (j+k) bhi

/-- Total matched size between two character sequences. -/
def seqMatchSize (a b : List Char) : Nat :=
  matchingTotal a b (a.length + b.length + 1) 0 a.length 0 b.length

/-- difflib `_calculate_ratio(matches, length)`. -/
def calcSimilarity (m total : Nat) : Frac :=
  if total = 0 then fr 1 1 else fr (2 * m) total

/-- `SequenceMatcher(None, a, b).ratio()`. -/
def sequenceSimilarity (a b : String) : Frac :=
  calcSimilarity (seqMatchSize a.toList b.toList) (a.length + b.length)

/-- `SequenceMatcher.quick_ratio()`: multiset intersection size upper bound. -/
def quickSimilarity (a b : String) : Frac :=
  calcSimilarity
    ((a.toList.dedup.map (fun c => min (a.toList.count c) (b.toList.count c))).sum)
    (a.length + b.length)

/-- `SequenceMatcher.real_quick_ratio()`. -/
def realQuickSimilarity (a b : String) : Frac :=
  calcSimilarity (min a.length b.length) (a.length + b.length)

/-- `difflib.get_close_matches(word, possibilities, n=1, cutoff)`: keep the
candidates passing all three filters, return the one with the largest
`(ratio, candidate)` pair (`heapq.nlargest` tuple order, first maximal kept
on exact ties). -/
def get_close_matches1 (word : String) (possibilities : List String) (cutoff : Frac) :
    Option String :=
  let scored := possibilities.filterMap (fun x =>
    if cutoff.leB (realQuickSimilarity x word) && cutoff.leB (quickSimilarity x word) &&
        cutoff.leB (sequenceSimilarity x word) then
      some (sequenceSimilarity x word, x)
    else none)
  (scored.foldl (fun acc p =>
    match acc with
    | none => some p
    | some q => if q.1.ltB p.1 || (q.1.eqB p.1 && pyStrLt q.2 p.2) then some p else some q)
    none).map Prod.snd

/-! ## Fuzzy entity matching (`src/tools/ai_tools.py`) -/

/-- Number of leading characters that agree (the prefix-match loop of
`_calculate_match_score`, which breaks at the first mismatch and is
naturally capped at the shorter length). -/
def leadMatchLen : List Char → List Char → Nat
  | a :: as, b :: bs => if a == b then leadMatchLen as bs + 1 else 0
  | _, _ => 0

/-- `_calculate_match_score(query, candidate)` (ai_tools.py lines 200–238):
base `SequenceMatcher` ratio, plus a prefix bonus of up to +0.15 when the
shorter string has at least 3 characters, minus a relative length-difference
penalty weighted 0.1, clamped to `[0, 1]`. -/
def _calculate_match_score (query candidate : String) : Frac :=
  let similarity := sequenceSimilarity query candidate
  let minLen := min query.length candidate.length
  let s1 :=
    if 3 ≤ minLen then
      similarity.add (((fr (leadMatchLen query.toList candidate.toList) 1).divNat
        minLen).mul (fr 15 100))
    else similarity
  let maxLen := max query.length candidate.length
  let lenDiff := maxLen - minLen
  let s2 :=
    if 0 < maxLen then s1.sub (((fr lenDiff 1).divNat maxLen).mul (fr 1 10)) else s1
  (fr 0 1).fmax ((fr 1 1).fmin s2)

/-- The candidate fragments scored for one vocabulary full name:
the full name itself plus each whitespace-separated component
(`candidates = [full_name] + full_name.split()`). -/
def authorCandidates (full_name : String) : List String :=
  full_name :: pySplit full_name

/-- First name-component of a full name (`full_name.split()[0]`; the
source would raise on an all-whitespace name, which cannot occur since
vocabularies are built from non-empty author columns). -/
def firstComponent (full_name : String) : String :=
  (pySplit full_name).headD ""

/-- One update step of the best-match accumulator: keep the new scored
pair only on strict improvement (`if score > best_score`). -/
def bestStep (acc : Frac × Option String) (p : Frac × String) : Frac × Option String :=
  if acc.1.ltB p.1 then (p.1, some p.2) else acc

/-- `_fuzzy_match_author(author, available_authors)` (ai_tools.py lines
466–500): exact case-insensitive match first; otherwise plain
`SequenceMatcher` ratio over full names and their components, +0.1 when the
candidate equals the first name-component; accept the best full name at
score ≥ 0.65, otherwise return the original string. -/
def _fuzzy_match_author (author : String) (available_authors : List String) : String :=
  match available_authors.find? (fun a => pyLower a == pyLower author) with
  | some a => a
  | none =>
    let best := available_authors.foldl (fun acc full =>
      (authorCandidates full).foldl (fun acc2 cand =>
        let score0 := sequenceSimilarity (pyLower author) (pyLower cand)
        let score := if cand == firstComponent full then score0.add (fr 1 10) else score0
        bestStep acc2 (score, full)) acc) ((fr 0 1), (none : Option String))
    if (fr 13 20).leB best.1 then best.2.getD author else author

/-- Substring-containment stage of genre matching: either lowercased
string contains the other and the shorter covers at least 0.6 of the
longer. -/
def genreOverlapOK (gl : String) (g : String) : Bool :=
  (pyContains (pyLower g) gl || pyContains gl (pyLower g)) &&
    (fr 3 5).leB ((fr (min gl.length g.length) 1).divNat (max gl.length g.length))

/-- `_fuzzy_match_genre(genre, available_genres)` (ai_tools.py lines
503–530): exact case-insensitive match, then substring containment with
overlap ratio ≥ 0.6, then `get_close_matches` with strict cutoff 0.75,
otherwise the original string. -/
def _fuzzy_match_genre (genre : String) (available_genres : List String) : String :=
  match available_genres.find? (fun g => pyLower g == pyLower genre) with
  | some g => g
  | none =>
    let gl := pyLower genre
    match available_genres.find? (fun g => genreOverlapOK gl g) with
    | some g => g
    | none =>
      match get_close_matches1 genre available_genres (fr 3 4) with
      | some m => m
      | none => genre

/-- The author branch of `validate_filters` (ai_tools.py lines 556–600):
exact case-insensitive match; otherwise `_calculate_match_score`-based
scoring over full names and components with the first-component bonus;
accept the best full name at score ≥ 0.65; below the threshold keep the
original string only when it has at most 200 characters, else `None`. -/
def validateAuthorFilter (author : String) (available_authors : List String) : Option String :=
  let a := pyStrip author
  if a.isEmpty then none
  else if available_authors.isEmpty then
    (if a.length ≤ 200 then some a else none)
  else
    match available_authors.find? (fun x => pyLower x == pyLower a) with
    | some x => some x
    | none =>
      let best := available_authors.foldl (fun acc full =>
        (authorCandidates full).foldl (fun acc2 cand =>
          let score0 := _calculate_match_score (pyLower a) (pyLower cand)
          let score := if cand == firstComponent full then score0.add (fr 1 10) else score0
          bestStep acc2 (score, full)) acc) ((fr 0 1), (none : Option String))
      if (fr 13 20).leB best.1 then best.2
      else if a.length ≤ 200 then some a else none

/-- The genre branch of `validate_filters` (ai_tools.py lines 602–636):
exact case-insensitive match, then `get_close_matches` with the lowered
cutoff 0.4 (no substring stage), else keep the original when at most 50
characters. -/
def validateGenreFilter (genre : String) (available_genres : List String) : Option String :=
  let g := pyStrip genre
  if g.isEmpty then none
  else if available_genres.isEmpty then
    (if g.length ≤ 50 then some g else none)
  else
    match available_genres.find? (fun x => pyLower x == pyLower g) with
    | some x => some x
    | none =>
      match get_close_matches1 g available_genres (fr 2 5) with
      | some m => some m
      | none => if g.length ≤ 50 then some g else none

/-! ## SQL predicate validator

Modelled from the spec: the implementation file `src/utils/sql_validator.py`
is not present under `src/` — only its unit tests
(`tests/unit/test_sql_validator.py`) and its caller (`ai_tools.nl_to_sql_where`)
are.  The definitions below follow the rule pipeline of spec §4.3
(short-circuit on first failure: empty input, statement separator, comment
markers, dangerous keywords including fuzzy typo variants and
parenthesised subquery `SELECT`, disallowed function calls outside the
date-extraction allowlist, non-allowlisted column references, unbalanced
parentheses), with rejection messages matching the unit tests'
expectations. -/

/-- Characters that form SQL identifiers/words. -/
def isWordChar (c : Char) : Bool := c.isAlphanum || c == '_'

/-- Maximal identifier-character runs of a character list. -/
def wordRunsAux : List Char → List Char → List String
  | acc, [] => if acc.isEmpty then [] else [String.mk acc.reverse]
  | acc, c :: cs =>
    if isWordChar c then wordRunsAux (c :: acc) cs
    else if acc.isEmpty then wordRunsAux [] cs
    else String.mk acc.reverse :: wordRunsAux [] cs

/-- Replace the contents of single-quoted SQL string literals by a space
(so literal text is not treated as identifiers). -/
def stripLiteralsAux : Bool → List Char → List Char
  | _, [] => []
  | false, c :: cs =>
    if c == sqChar then ' ' :: stripLiteralsAux true cs else c :: stripLiteralsAux false cs
  | true, c :: cs =>
    if c == sqChar then ' ' :: stripLiteralsAux false cs else stripLiteralsAux true cs

/-- String literal contents replaced by whitespace. -/
def stripLiterals (s : String) : String := String.mk (stripLiteralsAux false s.toList)

/-- Mutating / schema-altering keywords rejected by the validator. -/
def dangerousKeywords : List String :=
  ["DELETE", "DROP", "UPDATE", "INSERT", "ALTER", "EXEC", "UNION", "JOIN"]

/-- Non-column SQL words the validator accepts in a predicate. -/
def allowedSqlWords : List String :=
  ["AND", "OR", "NOT", "ILIKE", "LIKE", "IN", "IS", "NULL", "BETWEEN",
   "EXTRACT", "YEAR", "MONTH", "DAY", "FROM", "TRUE", "FALSE", "ASC", "DESC"]

/-- The column allowlist for the searchable entity. -/
def allowedColumns : List String :=
  ["title", "description", "author", "genre", "isbn", "published_date"]

/-- The function-call allowlist (date extraction only). -/
def allowedFunctions : List String := ["EXTRACT"]

/-- A clause token is a fuzzy/typo variant of a dangerous keyword when its
`SequenceMatcher` similarity to the keyword reaches 0.8 (catches `delect`,
`delet`, `updat`, `drp`, `insrt` from the unit tests while leaving every
legitimate SQL word below the bar). -/
def typoOffender (clause : String) : Option (String × String) :=
  (wordRunsAux [] clause.toList).findSome? (fun t =>
    dangerousKeywords.findSome? (fun kw =>
      if (fr 4 5).leB (sequenceSimilarity (pyLower t) (pyLower kw)) then some (t, kw)
      else none))

/-- `SELECT` nested directly inside parentheses (nearest preceding
non-whitespace character is an opening parenthesis). -/
def subqueryScanAux (last : Char) : List Char → Bool
  | [] => false
  | c :: cs =>
    if listPrefixOf "SELECT".toList (c :: cs) && last == '(' then true
    else subqueryScanAux (if c.isWhitespace then last else c) cs

/-- Subquery detection on the uppercased clause. -/
def hasParenSelect (clause : String) : Bool :=
  subqueryScanAux ' ' (pyUpper clause).toList

/-- First identifier applied directly (no gap) to an opening parenthesis
that is not in the function allowlist. -/
def funcOffenderAux : List Char → List Char → Option String
  | _, [] => none
  | acc, c :: cs =>
    if c == '(' then
      if !acc.isEmpty && !(allowedFunctions.contains (pyUpper (String.mk acc.reverse))) then
        some (String.mk acc.reverse)
      else funcOffenderAux [] cs
    else if isWordChar c then funcOffenderAux (c :: acc) cs
    else funcOffenderAux [] cs

/-- First disallowed function call in the literal-stripped clause. -/
def funcOffender (clause : String) : Option String :=
  funcOffenderAux [] (stripLiterals clause).toList

/-- A token is acceptable when it is numeric, an allowed SQL word, or an
allowlisted column. -/
def tokenOK (t : String) : Bool :=
  t.toList.all Char.isDigit || allowedSqlWords.contains (pyUpper t) ||
    allowedColumns.contains (pyLower t)

/-- First non-allowlisted column reference in the literal-stripped clause. -/
def columnOffender (clause : String) : Option String :=
  (wordRunsAux [] (stripLiterals clause).toList).find? (fun t => !tokenOK t)

/-- Parenthesis balance (never negative, zero at the end) on the
literal-stripped clause. -/
def parensBalancedAux : Nat → Bool → List Char → Bool
  | d, ok, [] => ok && d == 0
  | d, ok, c :: cs =>
    if c == '(' then parensBalancedAux (d + 1) ok cs
    else if c == ')' then parensBalancedAux (d - 1) (ok && decide (0 < d)) cs
    else parensBalancedAux d ok cs

/-- Balanced-parentheses check. -/
def parensBalanced (clause : String) : Bool :=
  parensBalancedAux 0 true (stripLiterals clause).toList

/-- Modelled from the spec: `validate_where_clause` of the missing
`src/utils/sql_validator.py`, the §4.3 rule pipeline returning
`(is_valid, message)`. -/
def validate_where_clause (clause : String) : Bool × String :=
  if (pyStrip clause).isEmpty then (false, "WHERE clause cannot be empty")
  else if pyContains clause ";" then (false, "Multiple statements not allowed")
  else if pyContains clause "--" || pyContains clause "/*" || pyContains clause "*/" then
    (false, "SQL comments not allowed")
  else
    match dangerousKeywords.find? (fun kw => pyContains (pyUpper clause) kw) with
    | some kw => (false, "Dangerous keyword " ++ kw ++ " not allowed")
    | none =>
      match typoOffender clause with
      | some tk =>
        (false, "Suspicious keyword " ++ sqStr ++ tk.1 ++ sqStr ++ " similar to " ++ tk.2)
      | none =>
        if hasParenSelect clause then (false, "Subqueries not allowed")
        else
          match funcOffender clause with
          | some f => (false, "Dangerous functions not allowed: " ++ f)
          | none =>
            match columnOffender clause with
            | some t => (false, "Column " ++ sqStr ++ t ++ sqStr ++ " not allowed")
            | none =>
              if !parensBalanced clause then (false, "Unbalanced parentheses")
              else (true, "Valid")

/-! ## NL-to-predicate translator (`ai_tools.nl_to_sql_where`)

The external text-completion oracle is a parameter: an oracle interaction
either finds no API key configured, raises an exception carrying a
message, or replies with generated text. -/

/-- Outcome of one oracle interaction. -/
inductive Oracle where
  | noKey : Oracle
  | raised : String → Oracle
  | reply : String → Oracle
deriving DecidableEq, Repr

/-- Result record of `nl_to_sql_where`. -/
structure SqlResult where
  where_clause : Option String
  success : Bool
  error : Option String
  fallback_reason : Option String
  attempted_clause : Option String
deriving DecidableEq, Repr

/-- Markdown fence stripping of `nl_to_sql_where` (` ```sql ` prefix of
length 6, then a remaining ` ``` ` prefix of length 3, then a ` ``` `
suffix), applied to the already-stripped response text. -/
def stripFencesSql (content : String) : String :=
  let c1 := if pyStartsWith content "```sql" then pyDrop content 6 else content
  let c2 := if pyStartsWith c1 "```" then pyDrop c1 3 else c1
  if pyEndsWith c2 "```" then pyDropRight c2 3 else c2

/-- Markdown fence stripping of `nl_to_filters` (` ```json ` prefix of
length 7, then ` ``` `). -/
def stripFencesJson (content : String) : String :=
  let c1 := if pyStartsWith content "```json" then pyDrop content 7 else content
  let c2 := if pyStartsWith c1 "```" then pyDrop c1 3 else c1
  if pyEndsWith c2 "```" then pyDropRight c2 3 else c2

/-- The clause extracted from a raw oracle reply: strip + de-fence + strip,
then drop a leading `WHERE ` keyword. -/
def cleanWhereClause (text : String) : String :=
  let wc := pyStrip (stripFencesSql (pyStrip text))
  if pyStartsWith (pyUpper wc) "WHERE " then pyStrip (pyDrop wc 6) else wc

/-- Drop a case-insensitive occurrence of `key` from the front. -/
def ciPrefixDrop : List Char → List Char → Option (List Char)
  | [], cs => some cs
  | _ :: _, [] => none
  | k :: ks, c :: cs => if c.toLower == k.toLower then ciPrefixDrop ks cs else none

/-- Consume one-or-more whitespace characters (`\s+`). -/
def wsPlus : List Char → Option (List Char)
  | [] => none
  | c :: cs => if c.isWhitespace then some ((c :: cs).dropWhile Char.isWhitespace) else none

/-- Match `key\s+ILIKE\s+'%([^%]+)%'` (case-insensitive keywords) at the
head of the character list; return the captured value and the rest after
the match. -/
def matchIlikePat (key : List Char) (cs : List Char) : Option (String × List Char) :=
  match ciPrefixDrop key cs with
  | none => none
  | some r1 =>
    match wsPlus r1 with
    | none => none
    | some r2 =>
      match ciPrefixDrop "ILIKE".toList r2 with
      | none => none
      | some r3 =>
        match wsPlus r3 with
        | none => none
        | some r4 =>
          match r4 with
          | q1 :: p1 :: r5 =>
            if q1 == sqChar && p1 == '%' then
              let cap := r5.takeWhile (fun c => c != '%')
              let rest := r5.dropWhile (fun c => c != '%')
              match rest with
              | p2 :: q2 :: r6 =>
                if !cap.isEmpty && p2 == '%' && q2 == sqChar then
                  some (String.mk cap, r6)
                else none
              | _ => none
            else none
          | _ => none

/-- Non-overlapping left-to-right scan (`re.findall`) for the pattern. -/
def scanIlikePat (key : List Char) : Nat → List Char → List String
  | 0, _ => []
  | _, [] => []
  | fuel+1, c :: cs =>
    match matchIlikePat key (c :: cs) with
    | some (cap, rest) => cap :: scanIlikePat key fuel rest
    | none => scanIlikePat key fuel cs

/-- `re.findall(key + r"\s+ILIKE\s+'%([^%]+)%'", clause, re.IGNORECASE)`. -/
def findIlikeValues (key : String) (clause : String) : List String :=
  scanIlikePat key.toList (clause.length + 1) clause.toList

/-- Python `str.replace(old, new)`: replace all non-overlapping
occurrences left to right (`old` is never empty at the call sites). -/
def pyReplaceAux (old new : List Char) : Nat → List Char → List Char
  | 0, cs => cs
  | _, [] => []
  | fuel+1, c :: cs =>
    if listPrefixOf old (c :: cs) then
      new ++ pyReplaceAux old new fuel (List.drop old.length (c :: cs))
    else c :: pyReplaceAux old new fuel cs

/-- Python `s.replace(old, new)`. -/
def pyReplace (s old new : String) : String :=
  if old.isEmpty then s
  else String.mk (pyReplaceAux old.toList new.toList (s.length + 1) s.toList)

/-- The SQL fragment `key ILIKE '%value%'` (exact casing used by the
substitution code). -/
def ilikeFragment (key value : String) : String :=
  key ++ " ILIKE " ++ sqStr ++ "%" ++ value ++ "%" ++ sqStr

/-- `_apply_fuzzy_matching_to_where_clause(where_clause)` (ai_tools.py
lines 403–463), with the live vocabularies passed explicitly (the source
reads them from storage): extract `author`/`genre` ILIKE values, fuzzy
correct each, and substitute corrected values back textually. -/
def _apply_fuzzy_matching_to_where_clause
    (where_clause : String) (available_authors available_genres : List String) : String :=
  let author_matches := findIlikeValues "author" where_clause
  let genre_matches := findIlikeValues "genre" where_clause
  if author_matches.isEmpty && genre_matches.isEmpty then where_clause
  else
    let c1 := author_matches.foldl (fun cl v =>
      let corr := _fuzzy_match_author v available_authors
      if !corr.isEmpty && corr != v then
        pyReplace cl (ilikeFragment "author" v) (ilikeFragment "author" corr)
      else cl) where_clause
    genre_matches.foldl (fun cl v =>
      let corr := _fuzzy_match_genre v available_genres
      if !corr.isEmpty && corr != v then
        pyReplace cl (ilikeFragment "genre" v) (ilikeFragment "genre" corr)
      else cl) c1

/-- `nl_to_sql_where(query)` (ai_tools.py lines 243–400), parameterised by
the oracle outcome and the live vocabularies. -/
def nl_to_sql_where (query : String) (o : Oracle)
    (available_authors available_genres : List String) : SqlResult :=
  if (pyStrip query).isEmpty then
    { where_clause := none, success := false, error := some "Query cannot be empty",
      fallback_reason := some "empty_query", attempted_clause := none }
  else
    match o with
    | .noKey =>
      { where_clause := none, success := false, error := some "GEMINI_API_KEY not set",
        fallback_reason := some "api_key_missing", attempted_clause := none }
    | .raised msg =>
      let reason :=
        if pyContains (pyLower msg) "quota" || pyContains msg "429" then "quota_exceeded"
        else if pyContains (pyLower msg) "event loop" then "event_loop_error"
        else "gemini_error"
      { where_clause := none, success := false, error := some msg,
        fallback_reason := some reason, attempted_clause := none }
    | .reply text =>
      let where_clause := cleanWhereClause text
      let v := validate_where_clause where_clause
      if !v.1 then
        { where_clause := none, success := false,
          error := some ("Generated WHERE clause failed validation: " ++ v.2),
          fallback_reason := some "validation_failed",
          attempted_clause := some where_clause }
      else
        let corrected :=
          _apply_fuzzy_matching_to_where_clause where_clause available_authors available_genres
        { where_clause := some corrected, success := true, error := none,
          fallback_reason := none, attempted_clause := none }

/-! ## JSON payloads

JSON values as produced by `json.loads` (numbers restricted to the
integers the cursor/filter payloads use). -/

/-- A decoded JSON value. -/
inductive Json where
  | null : Json
  | bool : Bool → Json
  | num : Int → Json
  | str : String → Json
  | arr : List Json → Json
  | obj : List (String × Json) → Json
deriving BEq, Repr

/-- Python `dict.get(key)` on a decoded JSON object (`json.loads` keeps
the last duplicate key, so field lists here have unique keys). -/
def pyGet (fields : List (String × Json)) (k : String) : Option Json :=
  (fields.find? (fun p => p.1 == k)).map Prod.snd

/-- Is the value a JSON object (a Python `dict`)? -/
def Json.isObj : Json → Bool
  | .obj _ => true
  | _ => false

/-- Python `int(s)` on a string: optional surrounding whitespace, optional
sign, one or more digits (underscore digit-grouping not modelled). -/
def pyIntOfString (s : String) : Option Int :=
  let t := pyStrip s
  let core := if pyStartsWith t "-" || pyStartsWith t "+" then pyDrop t 1 else t
  if core.isEmpty || !core.toList.all Char.isDigit then none
  else
    let n : Nat := core.toList.foldl (fun acc c => acc * 10 + (c.toNat - 48)) 0
    some (if pyStartsWith t "-" then -(n : Int) else (n : Int))

/-! ## NL-to-filter extractor (`ai_tools.nl_to_filters`, `validate_filters`) -/

/-- The `ExtractedFilters` record. -/
structure Filters where
  author : Option String
  genre : Option String
  published_year : Option Int
  search_query : Option String
deriving DecidableEq, Repr

/-- The all-`None` filters record. -/
def emptyFilters : Filters :=
  { author := none, genre := none, published_year := none, search_query := none }

/-- The year branch of `validate_filters`: accept `int` (including Python
`bool`, a subclass of `int`) or `str` values whose integer value lies in
`[1000, 2100]`. -/
def validateYearFilter (v : Json) : Option Int :=
  match v with
  | .num n => if 1000 ≤ n && n ≤ 2100 then some n else none
  | .bool _ => none
  | .str s =>
    match pyIntOfString s with
    | some n => if 1000 ≤ n && n ≤ 2100 then some n else none
    | none => none
  | _ => none

/-- The keyword branch of `validate_filters`: keep a non-empty stripped
string of at most 500 characters. -/
def validateSearchFilter (v : Json) : Option String :=
  match v with
  | .str s =>
    let t := pyStrip s
    if !t.isEmpty && t.length ≤ 500 then some t else none
  | _ => none

/-- `validate_filters(filters, available_genres, available_authors)`
(ai_tools.py lines 533–651) on a decoded JSON object. -/
def validate_filters (fields : List (String × Json))
    (available_genres available_authors : List String) : Filters :=
  { author :=
      match pyGet fields "author" with
      | some (.str s) => validateAuthorFilter s available_authors
      | _ => none
    genre :=
      match pyGet fields "genre" with
      | some (.str s) => validateGenreFilter s available_genres
      | _ => none
    published_year :=
      match pyGet fields "published_year" with
      | some v => validateYearFilter v
      | none => none
    search_query :=
      match pyGet fields "search_query" with
      | some v => validateSearchFilter v
      | none => none }

/-- `nl_to_filters(query, available_genres, available_authors)`
(ai_tools.py lines 89–197), parameterised by the oracle outcome and by the
`json.loads` parser (an external library routine).  Every failure path —
missing key, raised oracle exception, malformed JSON, or a non-object
payload (whose `.get` raises `AttributeError`) — is caught and produces
the safe default carrying the raw query text. -/
def nl_to_filters (query : String) (o : Oracle)
    (jsonParse : String → Except String Json)
    (available_genres available_authors : List String) : Filters :=
  if query.isEmpty || (pyStrip query).isEmpty then emptyFilters
  else
    match o with
    | .noKey => { emptyFilters with search_query := some query }
    | .raised _ => { emptyFilters with search_query := some query }
    | .reply text =>
      match jsonParse (pyStrip (stripFencesJson (pyStrip text))) with
      | .error _ => { emptyFilters with search_query := some query }
      | .ok j =>
        match j with
        | .obj fields => validate_filters fields available_genres available_authors
        | _ => { emptyFilters with search_query := some query }

/-! ## Storage model (`src/model/book.py`, `src/repository/`)

A book row; `created_at` is a timestamp modelled as a natural number,
`published_year` stands for `EXTRACT(YEAR FROM published_date)`. -/

structure Book where
  id : Nat
  title : String
  description : String
  isbn : String
  author : String
  genre : String
  published_year : Nat
  created_at : Nat
deriving DecidableEq, Repr

/-- The compound pagination key `(created_at, id)`. -/
def bkey (b : Book) : Nat × Nat := (b.created_at, b.id)

/-- Lexicographic strict order on compound keys, exactly the cursor
condition `created_at < c ∨ (created_at = c ∧ id < i)` of
`BaseRepository.list`. -/
def keyLtB (x y : Nat × Nat) : Bool :=
  x.1 < y.1 || (x.1 == y.1 && x.2 < y.2)

/-- Lexicographic non-strict order on compound keys. -/
def keyLeB (x y : Nat × Nat) : Bool :=
  x.1 < y.1 || (x.1 == y.1 && x.2 ≤ y.2)

/-- `ORDER BY created_at DESC, id DESC`: `a` comes no later than `b`. -/
def rdescP (a b : Book) : Prop := keyLeB (bkey b) (bkey a) = true

/-- `ORDER BY created_at ASC, id ASC`. -/
def rascP (a b : Book) : Prop := keyLeB (bkey a) (bkey b) = true

instance : DecidableRel rdescP := fun _ _ => decEq _ _

instance : DecidableRel rascP := fun _ _ => decEq _ _

/-- `ORDER BY created_at DESC` (no id tie-break, as in
`search_books_ilike`); insertion sort keeps input order on ties. -/
def cdescP (a b : Book) : Prop := b.created_at ≤ a.created_at

/-- `ORDER BY created_at ASC`. -/
def cascP (a b : Book) : Prop := a.created_at ≤ b.created_at

instance : DecidableRel cdescP := fun _ _ => Nat.decLe _ _

instance : DecidableRel cascP := fun _ _ => Nat.decLe _ _

/-- `get_all_genres` (book.py lines 23–28): distinct non-empty genre
values. -/
def get_all_genres (db : List Book) : List String :=
  ((db.map Book.genre).dedup).filter (fun g => !g.isEmpty)

/-- `get_all_authors` (book.py lines 30–35). -/
def get_all_authors (db : List Book) : List String :=
  ((db.map Book.author).dedup).filter (fun a => !a.isEmpty)

/-! ## Cursors (`BaseRepository._encode_cursor`, `BookRepository._decode_rank_cursor`)

A cursor token is modelled by its decode result
(`json.loads(base64.b64decode(tok))`): `Except.error` for a token that is
not valid base64/JSON, `Except.ok j` for one whose decoded payload is
`j`. -/

/-- The JSON payload produced by `BaseRepository._encode_cursor` for the
compound recency cursor. -/
def encodeCompoundPayload (created_at_iso : String) (id : Nat) : Json :=
  .obj [("created_at", .str created_at_iso), ("id", .num (id : Int))]

/-- The JSON payload produced by `BookRepository._encode_rank_cursor`. -/
def encodeRankPayload (offset : Int) : Json := .obj [("offset", .num offset)]

/-- `BookRepository._decode_rank_cursor` (book.py lines 320–326):
`int(payload.get("offset", 0))` with every exception turned into
`ValueError("Invalid cursor format")`.  A JSON object without an
`"offset"` key yields the default `0`; a non-object payload raises
(`.get` is missing); a non-integer-convertible value raises. -/
def _decode_rank_cursor (c : Except String Json) : Except String Int :=
  match c with
  | .error _ => .error "Invalid cursor format"
  | .ok j =>
    match j with
    | .obj fields =>
      match pyGet fields "offset" with
      | none => .ok 0
      | some (.num n) => .ok n
      | some (.bool b) => .ok (if b then 1 else 0)
      | some (.str s) =>
        match pyIntOfString s with
        | some n => .ok n
        | none => .error "Invalid cursor format"
      | some _ => .error "Invalid cursor format"
    | _ => .error "Invalid cursor format"

/-- Offset of an optional rank cursor (`if cursor else 0`). -/
def rankOffset (cursor : Option (Except String Json)) : Except String Int :=
  match cursor with
  | none => .ok 0
  | some c => _decode_rank_cursor c

/-! ## AI-path searches (`src/repository/book.py`) -/

/-- The stop-word set of `search_books_ilike`. -/
def ilikeStopWords : List String :=
  ["a", "an", "the", "and", "or", "but", "in", "on", "at", "to", "for", "of",
   "with", "by", "any", "me", "my", "find", "show", "get"]

/-- Keyword extraction of `search_books_ilike` (book.py lines 184–213):
lowercase whitespace tokens that are not stop words and are longer than
2 characters. -/
def ilikeKeywords (query : String) : List String :=
  (pySplit (pyLower query)).filterMap (fun w =>
    let t := pyStrip w
    if !t.isEmpty && !ilikeStopWords.contains t && 2 < t.length then some t else none)

/-- The keyword condition of `search_books_ilike` (book.py lines 215–230):
a row matches when ANY keyword matches any of title, description, author,
genre (OR across keywords); no constraint when no keyword survives. -/
def ilikeKeywordCond (query : Option String) (b : Book) : Bool :=
  match query with
  | none => true
  | some q =>
    let kws := ilikeKeywords q
    if kws.isEmpty then true
    else kws.any (fun kw =>
      ilikeContains b.title kw || ilikeContains b.description kw ||
        ilikeContains b.author kw || ilikeContains b.genre kw)

/-- The structured-filter condition of `search_books_ilike`
(book.py lines 174–180). -/
def ilikeStructuredCond (author genre : Option String) (published_year : Option Int)
    (b : Book) : Bool :=
  (match author with | some a => ilikeContains b.author a | none => true) &&
  (match genre with | some g => ilikeContains b.genre g | none => true) &&
  (match published_year with | some y => ((b.published_year : Int) == y) | none => true)

/-- `search_books_ilike` (book.py lines 160–254): structured filters AND
the any-keyword condition, ordered by `created_at` only, offset-paginated
with a `limit+1` fetch; a bad cursor raises `ValueError` (the `Except`
error). -/
def search_books_ilike (db : List Book) (query author genre : Option String)
    (published_year : Option Int) (limit : Nat)
    (cursor : Option (Except String Json)) (sortAsc : Bool) :
    Except String (List Book × Option Int) :=
  match rankOffset cursor with
  | .error e => .error e
  | .ok offset =>
    let rows := db.filter (fun b =>
      ilikeStructuredCond author genre published_year b && ilikeKeywordCond query b)
    let sorted := if sortAsc then rows.insertionSort cascP else rows.insertionSort cdescP
    let fetched := (sorted.drop offset.toNat).take (limit + 1)
    let items := fetched.take limit
    .ok (items, if limit < fetched.length then some (offset + (limit : Int)) else none)

/-- `search_books_with_where_clause` (book.py lines 256–314): the storage
engine's interpretation of a raw validated predicate is the external
parameter `sqlSem`; ordering and offset pagination as in the source (the
SQLite `ILIKE`→`LIKE` rewrite applies only to the test double and is not
modelled). -/
def search_books_with_where_clause (db : List Book) (sqlSem : String → Book → Bool)
    (where_clause : String) (limit : Nat)
    (cursor : Option (Except String Json)) (sortAsc : Bool) :
    Except String (List Book × Option Int) :=
  match rankOffset cursor with
  | .error e => .error e
  | .ok offset =>
    let rows := db.filter (sqlSem where_clause)
    let sorted := if sortAsc then rows.insertionSort cascP else rows.insertionSort cdescP
    let fetched := (sorted.drop offset.toNat).take (limit + 1)
    let items := fetched.take limit
    .ok (items, if limit < fetched.length then some (offset + (limit : Int)) else none)

/-! ## Recency-cursor listing (`BaseRepository.list`) -/

/-- The `desc` cursor condition of `BaseRepository.list` (base.py lines
68–77): rows strictly after the cursor key in descending order. -/
def afterDesc (c : Nat × Nat) (b : Book) : Bool := keyLtB (bkey b) c

/-- The `asc` cursor condition (base.py lines 58–67). -/
def afterAsc (c : Nat × Nat) (b : Book) : Bool := keyLtB c (bkey b)

namespace BaseRepository

/-- `BaseRepository.list` (base.py lines 29–212) over an in-memory table.
`P` is the conjunction of the exact-match filters, custom filters and
keyword search applied to the statement (all of them `WHERE` conjuncts);
the compound cursor is modelled at its decoded `(created_at, id)` level.
Fetches `limit+1` rows; on overflow trims to `limit` rows and emits the
compound key of the last returned row (the source indexes `items[-1]`,
which requires `limit ≥ 1` — the API bound — to be populated). -/
def list (db : List Book) (P : Book → Bool) (limit : Nat)
    (cursor : Option (Nat × Nat)) (sortAsc : Bool) :
    List Book × Option (Nat × Nat) :=
  let rows := db.filter P
  let rows2 :=
    match cursor with
    | none => rows
    | some c => rows.filter (if sortAsc then afterAsc c else afterDesc c)
  let sorted := if sortAsc then rows2.insertionSort rascP else rows2.insertionSort rdescP
  let fetched := sorted.take (limit + 1)
  if limit < fetched.length then
    let items := fetched.take limit
    (items, items.getLast?.map bkey)
  else (fetched, none)

end BaseRepository

/-- Walking the cursor chain: fetch a page, stop on a null next-cursor,
else continue from the returned cursor; `none` when the fuel runs out
(never happens from a fresh walk with positive page size). -/
def walkPages (db : List Book) (P : Book → Bool) (limit : Nat) (sortAsc : Bool) :
    Nat → Option (Nat × Nat) → Option (List Book)
  | 0, _ => none
  | fuel+1, cur =>
    let res := BaseRepository.list db P limit cur sortAsc
    match res.2 with
    | none => some res.1
    | some c =>
      match walkPages db P limit sortAsc fuel (some c) with
      | none => none
      | some rest => some (res.1 ++ rest)

/-- The full cursor walk starting from the null cursor. -/
def paginateChain (db : List Book) (P : Book → Bool) (limit : Nat) (sortAsc : Bool) :
    Option (List Book) :=
  walkPages db P limit sortAsc (db.length + 1) none

/-! ## The natural-language endpoint (`ai_tools_route.search_books_natural_language`) -/

/-- Response of the natural-language search endpoint (the JSON body the
route returns). -/
structure NLResponse where
  method : String
  where_clause : Option String
  extracted_filters : Option Filters
  books : List Book
  count : Nat
  next_cursor : Option Int
  fallback_used : Bool
  fallback_reason : Option String
deriving DecidableEq, Repr

/-- HTTP error outcomes the route can raise. -/
inductive RouteError where
  | badRequest : String → RouteError
  | serverError : String → RouteError
deriving DecidableEq, Repr

/-- Which cascade stages ran and which predicate reached storage. -/
structure RouteAudit where
  sqlOracleCalled : Bool
  filterOracleCalled : Bool
  executedWhere : Option String
deriving DecidableEq, Repr

/-- The fallback tier of the route (route lines 113–180):
`nl_to_filters_validated` (service/ai.py lines 93–115: empty query short
circuit, 500-character bound raising `ValueError`, fresh vocabularies,
`nl_to_filters` on the stripped query) followed by the ILIKE search; a
`ValueError` (bad cursor, long query) becomes a 400, nothing else can
raise in the model. -/
def nlFallbackTier (db : List Book) (jsonParse : String → Except String Json)
    (q : String) (limit : Nat) (cursor : Option (Except String Json)) (sortAsc : Bool)
    (o2 : Oracle) (sqlResult : SqlResult) (sqlStage : Bool) (execWhere : Option String) :
    (Except RouteError NLResponse) × RouteAudit :=
  if 500 < q.length && !q.isEmpty then
    (.error (.badRequest "Query too long (max 500 characters)"),
     { sqlOracleCalled := sqlStage, filterOracleCalled := false, executedWhere := execWhere })
  else
    let filters :=
      if q.isEmpty then emptyFilters
      else nl_to_filters (pyStrip q) o2 jsonParse (get_all_genres db) (get_all_authors db)
    let oracle2 := !q.isEmpty && !(pyStrip q).isEmpty
    let keywords :=
      match filters.search_query with
      | some k => if k.isEmpty then q else k
      | none => q
    match search_books_ilike db (some keywords) filters.author filters.genre
        filters.published_year limit cursor sortAsc with
    | .ok (books, next) =>
      (.ok { method := "filter_extraction", where_clause := none,
             extracted_filters := some filters, books := books, count := books.length,
             next_cursor := next, fallback_used := true,
             fallback_reason := sqlResult.fallback_reason },
       { sqlOracleCalled := sqlStage, filterOracleCalled := oracle2,
         executedWhere := execWhere })
    | .error e =>
      (.error (.badRequest e),
       { sqlOracleCalled := sqlStage, filterOracleCalled := oracle2,
         executedWhere := execWhere })

/-- `search_books_natural_language` (ai_tools_route.py lines 48–180): the
SQL-generation tier first (`nl_to_sql_where`); on success execute the
returned predicate, falling back to filter extraction when execution
raises (in this model only a bad cursor can); on generation failure fall
back directly.  The audit records whether each oracle stage ran and which
predicate was executed against storage. -/
def search_books_natural_language (db : List Book) (sqlSem : String → Book → Bool)
    (jsonParse : String → Except String Json) (q : String) (limit : Nat)
    (cursor : Option (Except String Json)) (sortAsc : Bool) (o1 o2 : Oracle) :
    (Except RouteError NLResponse) × RouteAudit :=
  let sqlResult := nl_to_sql_where q o1 (get_all_authors db) (get_all_genres db)
  let sqlStage := !(pyStrip q).isEmpty
  if sqlResult.success then
    match sqlResult.where_clause with
    | some wc =>
      match search_books_with_where_clause db sqlSem wc limit cursor sortAsc with
      | .ok (books, next) =>
        (.ok { method := "sql_where_clause", where_clause := some wc,
               extracted_filters := none, books := books, count := books.length,
               next_cursor := next, fallback_used := false, fallback_reason := none },
         { sqlOracleCalled := sqlStage, filterOracleCalled := false,
           executedWhere := some wc })
      | .error _ =>
        nlFallbackTier db jsonParse q limit cursor sortAsc o2 sqlResult sqlStage none
    | none =>
      nlFallbackTier db jsonParse q limit cursor sortAsc o2 sqlResult sqlStage none
  else
    nlFallbackTier db jsonParse q limit cursor sortAsc o2 sqlResult sqlStage none

/-! ## General lemmas -/

/-- `find?` picks the head of the filtered list. -/
theorem find?_eq_filter_head? {α : Type} (p : α → Bool) (l : List α) :
    l.find? p = (l.filter p).head? := by
  induction l with
  | nil => rfl
  | cons x t ih =>
    by_cases hp : p x = true
    · rw [List.find?_cons_of_pos _ hp, List.filter_cons_of_pos hp, List.head?_cons]
    · rw [List.find?_cons_of_neg _ hp, List.filter_cons_of_neg hp, ih]

/-! ## Claim C1 -/

/-- An accepted clause passes every guard of the rule pipeline. -/
theorem validate_accepts_guards (s : String)
    (h : (validate_where_clause s).1 = true) :
    pyContains s ";" = false ∧
    pyContains s "--" = false ∧ pyContains s "/*" = false ∧
    (∀ kw ∈ dangerousKeywords, pyContains (pyUpper s) kw = false) ∧
    typoOffender s = none ∧
    hasParenSelect s = false := by
  unfold validate_where_clause at h
  split at h
  · exact absurd h Bool.false_ne_true
  · split at h
    · exact absurd h Bool.false_ne_true
    · next hsep =>
      split at h
      · exact absurd h Bool.false_ne_true
      · next hcom =>
        split at h
        · exact absurd h Bool.false_ne_true
        · next hkw =>
          split at h
          · exact absurd h Bool.false_ne_true
          · next htypo =>
            split at h
            · exact absurd h Bool.false_ne_true
            · next hsub =>
              split at h
              · exact absurd h Bool.false_ne_true
              · next hcol =>
                split at h
                · exact absurd h Bool.false_ne_true
                · next hpar =>
                  simp only [Bool.not_eq_true, Bool.or_eq_true, not_or] at hsep hcom hsub
                  refine ⟨hsep, hcom.1.1, hcom.1.2, ?_, htypo, hsub⟩
                  intro kw hmem
                  simpa using List.find?_eq_none.mp hkw kw hmem

/-- Claim C1 (spec-modelled: `src/utils/sql_validator.py` is absent from
`src/`, so the validator is modelled from spec §4.3 and its unit tests):
every input string containing a statement separator `;`, a SQL comment
marker `--` or `/*`, a case-insensitive occurrence of a disallowed keyword
(DELETE, DROP, UPDATE, INSERT, ALTER, EXEC, UNION, JOIN), a common-typo
variant of one of them, or a parenthesis-nested subquery `SELECT`, is
rejected by `validate_where_clause`. -/
theorem validator_soundness (s : String)
    (h : pyContains s ";" = true ∨
         pyContains s "--" = true ∨ pyContains s "/*" = true ∨
         (∃ kw ∈ dangerousKeywords, pyContains (pyUpper s) kw = true) ∨
         typoOffender s ≠ none ∨
         hasParenSelect s = true) :
    (validate_where_clause s).1 = false := by
  by_contra hval
  have hacc : (validate_where_clause s).1 = true := by
    revert hval; cases (validate_where_clause s).1 <;> simp
  obtain ⟨h1, h2, h3, h4, h5, h6⟩ := validate_accepts_guards s hacc
  rcases h with h | h | h | ⟨kw, hmem, hh⟩ | h | h
  · rw [h1] at h; exact Bool.false_ne_true h
  · rw [h2] at h; exact Bool.false_ne_true h
  · rw [h3] at h; exact Bool.false_ne_true h
  · rw [h4 kw hmem] at hh; exact Bool.false_ne_true hh
  · exact h h5
  · rw [h6] at h; exact Bool.false_ne_true h

/-- Witness for C1 at the concrete injection attempt of spec scenario 8:
`title ILIKE '%test%'; DROP TABLE books` contains a statement separator
and is rejected. -/
theorem validator_soundness_witness :
    (validate_where_clause
      ("title ILIKE " ++ sqStr ++ "%test%" ++ sqStr ++ "; DROP TABLE books")).1 = false :=
  validator_soundness _ (Or.inl (by decide))


/-! ## Claim C10 -/

/-- Claim C10: a cursor whose decoded payload is a valid JSON object
lacking an `"offset"` key — in particular the compound
`{created_at, id}` payload produced by `BaseRepository._encode_cursor` —
makes `_decode_rank_cursor` return offset `0` instead of raising, so an
offset-paginated search handed such a foreign-strategy cursor silently
behaves exactly like a search from the first page (null cursor) rather
than reporting an invalid-cursor client error. -/
theorem rank_cursor_default_zero (fields : List (String × Json))
    (hnone : pyGet fields "offset" = none) :
    _decode_rank_cursor (.ok (.obj fields)) = .ok 0 ∧
    ∀ (db : List Book) (query author genre : Option String)
      (published_year : Option Int) (limit : Nat) (sortAsc : Bool),
      search_books_ilike db query author genre published_year limit
          (some (.ok (.obj fields))) sortAsc =
        search_books_ilike db query author genre published_year limit none sortAsc := by
  have hdec : _decode_rank_cursor (.ok (.obj fields)) = .ok 0 := by
    show (match pyGet fields "offset" with
      | none => Except.ok 0
      | some (.num n) => Except.ok n
      | some (.bool b) => Except.ok (if b then 1 else 0)
      | some (.str s) =>
        match pyIntOfString s with
        | some n => Except.ok n
        | none => Except.error "Invalid cursor format"
      | some _ => Except.error "Invalid cursor format") = Except.ok 0
    rw [hnone]
  refine ⟨hdec, ?_⟩
  intro db query author genre published_year limit sortAsc
  have hro : rankOffset (some (.ok (.obj fields))) = rankOffset none := by
    simp only [rankOffset, hdec]
  unfold search_books_ilike
  rw [hro]

/-- Witness for C10: the compound recency payload decodes to offset 0 and
the offset-paginated search restarts from the first page. -/
theorem rank_cursor_default_zero_witness :
    _decode_rank_cursor (.ok (encodeCompoundPayload "2024-01-01T00:00:00" 7)) = .ok 0 ∧
    search_books_ilike [] (some "python") none none none 10
        (some (.ok (encodeCompoundPayload "2024-01-01T00:00:00" 7))) true =
      search_books_ilike [] (some "python") none none none 10 none true := by
  have h := rank_cursor_default_zero
    [("created_at", .str "2024-01-01T00:00:00"), ("id", .num 7)] rfl
  exact ⟨h.1, h.2 [] (some "python") none none none 10 true⟩

/-! ## Claim C8 -/

/-- Claim C8 (extractor safe default): for every query that actually
reaches the oracle call (non-blank after stripping), if the oracle call
fails in any way — missing API key, raised exception (including transient
event-loop errors), malformed JSON reply, or a non-object payload (whose
`.get` raises `AttributeError`) — then `nl_to_filters` returns the
filters record with author, genre and year null and `search_query` equal
to the original query text.  The model is a total function: no failure
path raises. -/
theorem extractor_safe_default (query : String) (o : Oracle)
    (jsonParse : String → Except String Json)
    (available_genres available_authors : List String)
    (hq : pyStrip query ≠ "")
    (h : o = .noKey ∨ (∃ m, o = .raised m) ∨
         (∃ t e, o = .reply t ∧
            jsonParse (pyStrip (stripFencesJson (pyStrip t))) = .error e) ∨
         (∃ t j, o = .reply t ∧
            jsonParse (pyStrip (stripFencesJson (pyStrip t))) = .ok j ∧ j.isObj = false)) :
    nl_to_filters query o jsonParse available_genres available_authors =
      { emptyFilters with search_query := some query } := by
  have hq2 : (pyStrip query).isEmpty = false := by
    cases he : (pyStrip query).isEmpty
    · rfl
    · exact absurd ((String.isEmpty_iff _).mp he) hq
  have hq1 : query.isEmpty = false := by
    cases he : query.isEmpty
    · rfl
    · exact absurd (by rw [(String.isEmpty_iff _).mp he]; rfl) hq
  unfold nl_to_filters
  rw [hq1, hq2]
  simp only [Bool.or_self, Bool.false_eq_true, if_false]
  rcases h with h | ⟨m, h⟩ | ⟨t, e, h, hp⟩ | ⟨t, j, h, hp, hobj⟩
  · rw [h]
  · rw [h]
  · subst h
    simp only [hp]
  · subst h
    simp only [hp]
    cases j with
    | obj fields => exact absurd hobj (by simp [Json.isObj])
    | null => rfl
    | bool b => rfl
    | num n => rfl
    | str s => rfl
    | arr xs => rfl

/-- Witness for C8: a malformed oracle reply on query `"hello"` yields the
safe default. -/
theorem extractor_safe_default_witness :
    nl_to_filters "hello" (.reply "not json") (fun _ => .error "parse error") [] [] =
      { emptyFilters with search_query := some "hello" } :=
  extractor_safe_default "hello" (.reply "not json") (fun _ => .error "parse error") [] []
    (by decide) (Or.inr (Or.inr (Or.inl ⟨"not json", "parse error", rfl, rfl⟩)))

/-! ## Query normalizer of `BaseRepository.list` (base.py lines 91–188) -/

/-- The abbreviation table of `BaseRepository.list`. -/
def abbreviationsTable : List (String × String) :=
  [("db", "database"), ("ai", "artificial intelligence"), ("ml", "machine learning"),
   ("dl", "deep learning"), ("nlp", "natural language processing"),
   ("api", "application programming interface"), ("sql", "structured query language"),
   ("ui", "user interface"), ("ux", "user experience"), ("js", "javascript"),
   ("py", "python"), ("cs", "computer science"), ("it", "information technology"),
   ("iot", "internet of things"), ("ci", "continuous integration"),
   ("cd", "continuous deployment")]

/-- The synonym table of `BaseRepository.list`. -/
def synonymsTable : List (String × List String) :=
  [("underwater", ["deep-sea", "ocean", "submarine", "aquatic"]),
   ("deep-sea", ["underwater", "ocean", "submarine"]),
   ("ocean", ["underwater", "deep-sea", "sea", "marine"]),
   ("space", ["galaxy", "cosmic", "universe", "stellar"]),
   ("galaxy", ["space", "cosmic", "universe", "stellar"]),
   ("ancient", ["old", "historical", "antiquity"]),
   ("old", ["ancient", "historical", "vintage"]),
   ("future", ["futuristic", "tomorrow", "advanced"]),
   ("futuristic", ["future", "tomorrow", "advanced"]),
   ("scary", ["horror", "frightening", "terrifying"]),
   ("horror", ["scary", "frightening", "terrifying"])]

/-- The variant forms generated for one keyword (base.py lines 131–172):
the lowered literal, synonyms, abbreviation expansion (plus its plural),
plural/singular forms and `-ing`/`-ed` stemming; deduplicated (the source
uses `list(set(...))`, whose order is irrelevant to the OR semantics). -/
def keywordVariations (keyword : String) : List String :=
  let kl := pyLower keyword
  let v1 := [kl]
  let v2 := v1 ++ (match synonymsTable.find? (fun p => p.1 == kl) with
    | some p => p.2
    | none => [])
  let v3 := v2 ++ (match abbreviationsTable.find? (fun p => p.1 == kl) with
    | some p => p.2 :: (if !pyEndsWith p.2 "s" then [p.2 ++ "s"] else [])
    | none => [])
  let v4 := v3 ++ (if !pyEndsWith kl "s" then [kl ++ "s"] else [])
  let v5 := v4 ++ (if pyEndsWith kl "s" && 3 < kl.length then [pyDropRight kl 1] else [])
  let v6 := v5 ++ (if pyEndsWith kl "ing" && 4 < kl.length then
    [pyDropRight kl 3, pyDropRight kl 3 ++ "e"] else [])
  let v7 := v6 ++ (if pyEndsWith kl "ed" && 3 < kl.length then
    [pyDropRight kl 2, pyDropRight kl 2 ++ "e"] else [])
  v7.dedup

/-- The searchable text columns. -/
inductive BookField where
  | title | description | author | genre | isbn
deriving DecidableEq, Repr

/-- Column projection. -/
def bookField (b : Book) : BookField → String
  | .title => b.title
  | .description => b.description
  | .author => b.author
  | .genre => b.genre
  | .isbn => b.isbn

/-- The `search_fields` list passed by `search_books_fts` to
`BaseRepository.list` (book.py line 142). -/
def baseSearchFields : List BookField :=
  [.title, .description, .author, .genre, .isbn]

/-- The keyword-search condition built by `BaseRepository.list`
(base.py lines 91–188): for EVERY whitespace keyword, SOME variant matches
SOME searchable field (`and_` across keywords of `or_` across
variant × field pairs); no constraint when the query has no keywords. -/
def listKeywordMatch (search_query : String) (b : Book) : Bool :=
  (pySplit search_query).all (fun kw =>
    (keywordVariations kw).any (fun v =>
      baseSearchFields.any (fun f => ilikeContains (bookField b f) v)))

/-! ## Claim C5 -/

/-- The claim's conjunction semantics, stated over the keyword set and
field set of the AI-path `search_books_ilike`: every surviving keyword
must match at least one of its fields. -/
def ilikeConjunctiveSpec (q : String) (b : Book) : Bool :=
  (ilikeKeywords q).all (fun kw =>
    ilikeContains b.title kw || ilikeContains b.description kw ||
      ilikeContains b.author kw || ilikeContains b.genre kw)

/-- Counterexample to C5: in the keyword-search path of
`search_books_ilike` (the natural-language endpoint), keywords combine
with OR, not AND: for the query `python history`, a record matching only
`python` is returned even though `history` matches no field, violating
the claimed for-every-keyword semantics. -/
theorem ilike_or_semantics_cex :
    search_books_ilike
        [{ id := 1, title := "Python Basics", description := "drills",
           isbn := "i1", author := "Ada", genre := "Tech",
           published_year := 2020, created_at := 3 }]
        (some "python history") none none none 10 none true =
      .ok ([{ id := 1, title := "Python Basics", description := "drills",
              isbn := "i1", author := "Ada", genre := "Tech",
              published_year := 2020, created_at := 3 }], none) ∧
    ilikeConjunctiveSpec "python history"
        { id := 1, title := "Python Basics", description := "drills",
          isbn := "i1", author := "Ada", genre := "Tech",
          published_year := 2020, created_at := 3 } = false := by
  constructor
  · rfl
  · decide

/-- Claim C5 as amended: the AND-of-OR semantics holds in the
`BaseRepository.list` keyword path — a record satisfies the built filter
iff every whitespace keyword has some variant matching some searchable
field — while the AI-path `search_books_ilike` combines keywords with OR:
a record satisfies its keyword condition iff the surviving keyword set is
empty or some keyword matches some of its four fields. -/
theorem keyword_semantics_by_path (q : String) (b : Book) :
    (listKeywordMatch q b = true ↔
      ∀ kw ∈ pySplit q, ∃ v ∈ keywordVariations kw,
        ∃ f ∈ baseSearchFields, ilikeContains (bookField b f) v = true) ∧
    (ilikeKeywordCond (some q) b = true ↔
      (ilikeKeywords q = [] ∨
        ∃ kw ∈ ilikeKeywords q,
          (ilikeContains b.title kw = true ∨ ilikeContains b.description kw = true ∨
           ilikeContains b.author kw = true ∨ ilikeContains b.genre kw = true))) := by
  constructor
  · unfold listKeywordMatch
    simp [List.all_eq_true, List.any_eq_true]
  · simp only [ilikeKeywordCond]
    by_cases hk : (ilikeKeywords q).isEmpty = true
    · have he : ilikeKeywords q = [] := by simpa using hk
      rw [if_pos hk]
      simp [he]
    · have hne : ¬ ilikeKeywords q = [] := by
        intro he
        rw [he] at hk
        exact hk rfl
      rw [if_neg hk]
      simp [List.any_eq_true, hne, or_assoc]

/-! ## Claim C6 -/

/-- The genre-correction procedure exactly as the claim words it: after
the exact case-insensitive match short-circuit, return a vocabulary entry
when substring containment holds with overlap ratio at least 0.6 of the
longer string, otherwise the closest entry at global similarity at least
0.75, otherwise the original string. -/
def claimGenreCorrection (genre : String) (vocab : List String) : String :=
  match vocab.filter (fun g => pyLower g == pyLower genre) with
  | g :: _ => g
  | [] =>
    match vocab.filter (fun g => genreOverlapOK (pyLower genre) g) with
    | g :: _ => g
    | [] =>
      match get_close_matches1 genre vocab (fr 3 4) with
      | some m => m
      | none => genre

/-- Counterexample to C6: the genre branch of `validate_filters` is a
genre-correcting path that does not follow the claimed procedure — for
candidate `sci` against vocabulary `["Sci-Fi"]` the claimed procedure
keeps `sci` (containment overlap 3/6 < 0.6 and similarity 4/9 < 0.75),
but `validate_filters` corrects to `Sci-Fi` via its 0.4 cutoff with no
substring stage. -/
theorem genre_cutoff_cex :
    validateGenreFilter "sci" ["Sci-Fi"] = some "Sci-Fi" ∧
    claimGenreCorrection "sci" ["Sci-Fi"] = "sci" ∧
    ("Sci-Fi" : String) ≠ "sci" := by
  refine ⟨by decide, by decide, by decide⟩

/-- Claim C6 as amended: the claimed threshold procedure (exact match,
then substring containment with overlap at least 0.6, then closest match
at similarity at least 0.75, else the original) is exactly the behaviour
of `_fuzzy_match_genre` — the genre-correcting path of the WHERE-clause
translator — while the filter-extraction path (`validate_filters`) uses
`get_close_matches` with cutoff 0.4 and no substring stage instead. -/
theorem fuzzy_genre_procedure (genre : String) (vocab : List String) :
    _fuzzy_match_genre genre vocab = claimGenreCorrection genre vocab := by
  simp only [_fuzzy_match_genre, claimGenreCorrection,
    find?_eq_filter_head? (fun g => pyLower g == pyLower genre) vocab,
    find?_eq_filter_head? (fun g => genreOverlapOK (pyLower genre) g) vocab]
  cases vocab.filter (fun g => pyLower g == pyLower genre) with
  | cons g t => rfl
  | nil =>
    cases vocab.filter (fun g => genreOverlapOK (pyLower genre) g) with
    | cons g t => rfl
    | nil =>
      cases get_close_matches1 genre vocab (fr 3 4) with
      | some m => rfl
      | none => rfl

/-! ## Claim C2 -/

/-- A successful `nl_to_sql_where` result always carries the
fuzzy-corrected form of a clause that passed the validator. -/
theorem nl_to_sql_where_success_shape (q : String) (o : Oracle) (A G : List String)
    (h : (nl_to_sql_where q o A G).success = true) :
    ∃ t, o = .reply t ∧ (validate_where_clause (cleanWhereClause t)).1 = true ∧
      (nl_to_sql_where q o A G).where_clause =
        some (_apply_fuzzy_matching_to_where_clause (cleanWhereClause t) A G) := by
  unfold nl_to_sql_where at h ⊢
  by_cases hq : (pyStrip q).isEmpty = true
  · rw [if_pos hq] at h
    exact absurd h Bool.false_ne_true
  · rw [if_neg hq] at h
    rw [if_neg hq]
    cases o with
    | noKey => exact absurd h Bool.false_ne_true
    | raised m => exact absurd h Bool.false_ne_true
    | reply t =>
      by_cases hv : (validate_where_clause (cleanWhereClause t)).1 = true
      · refine ⟨t, rfl, hv, ?_⟩
        simp only [hv, Bool.not_true, Bool.false_eq_true, if_false]
      · have hv2 : (validate_where_clause (cleanWhereClause t)).1 = false := by
          cases hvv : (validate_where_clause (cleanWhereClause t)).1
          · rfl
          · exact absurd hvv hv
        simp only [hv2, Bool.not_false, if_true] at h
        exact absurd h Bool.false_ne_true

/-- A clause rejected by the validator makes `nl_to_sql_where` return the
`validation_failed` record carrying the rejected fragment. -/
theorem nl_to_sql_where_validation_failed (q t : String) (A G : List String)
    (hq : (pyStrip q).isEmpty = false)
    (hv : (validate_where_clause (cleanWhereClause t)).1 = false) :
    nl_to_sql_where q (.reply t) A G =
      { where_clause := none, success := false,
        error := some ("Generated WHERE clause failed validation: "
          ++ (validate_where_clause (cleanWhereClause t)).2),
        fallback_reason := some "validation_failed",
        attempted_clause := some (cleanWhereClause t) } := by
  unfold nl_to_sql_where
  rw [if_neg (by rw [hq]; exact Bool.false_ne_true)]
  simp only [hv, Bool.not_false, if_true]

/-- The fallback tier never touches the executed-predicate audit slot and
keeps the SQL-stage flag it was given. -/
theorem nlFallbackTier_audit (db : List Book) (jsonParse : String → Except String Json)
    (q : String) (limit : Nat) (cursor : Option (Except String Json)) (sortAsc : Bool)
    (o2 : Oracle) (sqlResult : SqlResult) (sqlStage : Bool) (execWhere : Option String) :
    (nlFallbackTier db jsonParse q limit cursor sortAsc o2 sqlResult sqlStage
        execWhere).2.executedWhere = execWhere ∧
    (nlFallbackTier db jsonParse q limit cursor sortAsc o2 sqlResult sqlStage
        execWhere).2.sqlOracleCalled = sqlStage := by
  unfold nlFallbackTier
  split
  · exact ⟨rfl, rfl⟩
  · split <;> refine ⟨?_, ?_⟩ <;> (dsimp only; split <;> rfl)

/-- Claim C2 as amended: (1) every predicate actually executed against
storage by the natural-language route is the fuzzy-corrected form of a
clause that passed `validate_where_clause` — the corrected form itself is
never re-validated; (2) a clause rejected by the validator is never
executed: the translator returns the `validation_failed` failure carrying
the rejected fragment and the route falls back without touching
storage with a predicate. -/
theorem executed_clause_provenance (db : List Book) (sqlSem : String → Book → Bool)
    (jsonParse : String → Except String Json) (q : String) (limit : Nat)
    (cursor : Option (Except String Json)) (sortAsc : Bool) (o1 o2 : Oracle) :
    (∀ w, (search_books_natural_language db sqlSem jsonParse q limit cursor sortAsc
        o1 o2).2.executedWhere = some w →
      ∃ c, (validate_where_clause c).1 = true ∧
        w = _apply_fuzzy_matching_to_where_clause c (get_all_authors db)
          (get_all_genres db)) ∧
    (∀ t, o1 = .reply t →
      (validate_where_clause (cleanWhereClause t)).1 = false →
      (pyStrip q).isEmpty = false →
      (search_books_natural_language db sqlSem jsonParse q limit cursor sortAsc
          o1 o2).2.executedWhere = none ∧
      (nl_to_sql_where q o1 (get_all_authors db) (get_all_genres db)).fallback_reason =
        some "validation_failed" ∧
      (nl_to_sql_where q o1 (get_all_authors db) (get_all_genres db)).attempted_clause =
        some (cleanWhereClause t)) := by
  constructor
  · intro w hw
    unfold search_books_natural_language at hw
    by_cases hs : (nl_to_sql_where q o1 (get_all_authors db) (get_all_genres db)).success
      = true
    · obtain ⟨t, ho, hv, hwc⟩ := nl_to_sql_where_success_shape _ _ _ _ hs
      rw [if_pos hs] at hw
      rw [hwc] at hw
      dsimp only at hw
      cases hex : search_books_with_where_clause db sqlSem
          (_apply_fuzzy_matching_to_where_clause (cleanWhereClause t)
            (get_all_authors db) (get_all_genres db)) limit cursor sortAsc with
      | ok res =>
        rw [hex] at hw
        refine ⟨cleanWhereClause t, hv, ?_⟩
        cases res with
        | mk books next =>
          simp only [RouteAudit.mk.injEq] at hw
          exact (Option.some_inj.mp hw).symm
      | error e =>
        rw [hex] at hw
        rw [(nlFallbackTier_audit db jsonParse q limit cursor sortAsc o2 _ _ none).1]
          at hw
        exact absurd hw (by simp)
    · have hs2 : (nl_to_sql_where q o1 (get_all_authors db)
          (get_all_genres db)).success = false := by
        cases hss : (nl_to_sql_where q o1 (get_all_authors db)
            (get_all_genres db)).success
        · rfl
        · exact absurd hss hs
      rw [if_neg (by rw [hs2]; exact Bool.false_ne_true)] at hw
      rw [(nlFallbackTier_audit db jsonParse q limit cursor sortAsc o2 _ _ none).1]
        at hw
      exact absurd hw (by simp)
  · intro t ho hv hq
    subst ho
    have hrec := nl_to_sql_where_validation_failed q t (get_all_authors db)
      (get_all_genres db) hq hv
    refine ⟨?_, by rw [hrec], by rw [hrec]⟩
    unfold search_books_natural_language
    rw [if_neg (by rw [hrec]; exact Bool.false_ne_true)]
    exact (nlFallbackTier_audit db jsonParse q limit cursor sortAsc o2 _ _ none).1

/-- The oracle-generated clause of the injection scenario. -/
def sqlBob : String := "author ILIKE " ++ sqStr ++ "%bob%" ++ sqStr

/-- Its fuzzy-corrected form once the vocabulary contains a hostile
author name. -/
def sqlBobCorrected : String :=
  "author ILIKE " ++ sqStr ++ "%bob; DROP TABLE books%" ++ sqStr

/-- A stored book whose author column contains an SQL fragment. -/
def bobBook : Book :=
  { id := 1, title := "T", description := "D", isbn := "I",
    author := "bob; DROP TABLE books", genre := "G",
    published_year := 2020, created_at := 5 }

/-- A parser standing for `json.loads` that always fails (the value is
irrelevant to the scenarios using it). -/
def noJson : String → Except String Json := fun _ => .error "malformed"

set_option maxRecDepth 40000 in
/-- Counterexample to C2 as stated: the predicate actually executed
against storage is the fuzzy-corrected clause, which itself fails
`validate_where_clause` (it contains a statement separator and `DROP`),
so the executed predicate never previously passed the validator — only
its pre-correction form did. -/
theorem executed_clause_fails_validation_cex :
    (search_books_natural_language [bobBook] (fun _ _ => true) noJson
        "find books by bob" 10 none true (.reply sqlBob) .noKey).2.executedWhere =
      some sqlBobCorrected ∧
    (validate_where_clause sqlBobCorrected).1 = false := by
  constructor
  · decide
  · decide

set_option maxRecDepth 40000 in
/-- Witness for the amended C2 at the injection scenario: the executed
clause is the fuzzy-corrected form of the validated clause. -/
theorem executed_clause_provenance_witness :
    ∃ c, (validate_where_clause c).1 = true ∧
      sqlBobCorrected = _apply_fuzzy_matching_to_where_clause c
        (get_all_authors [bobBook]) (get_all_genres [bobBook]) :=
  (executed_clause_provenance [bobBook] (fun _ _ => true) noJson
      "find books by bob" 10 none true (.reply sqlBob) .noKey).1
    sqlBobCorrected (by decide)

/-! ## Route lemmas shared by C3 and C9 -/

/-- A bad cursor makes the ILIKE search raise. -/
theorem search_ilike_cursor_error (db : List Book) (query author genre : Option String)
    (published_year : Option Int) (limit : Nat) (cursor : Option (Except String Json))
    (sortAsc : Bool) (e : String) (h : rankOffset cursor = .error e) :
    search_books_ilike db query author genre published_year limit cursor sortAsc =
      .error e := by
  unfold search_books_ilike
  rw [h]

/-- A good cursor makes the ILIKE search succeed. -/
theorem search_ilike_cursor_ok (db : List Book) (query author genre : Option String)
    (published_year : Option Int) (limit : Nat) (cursor : Option (Except String Json))
    (sortAsc : Bool) (off : Int) (h : rankOffset cursor = .ok off) :
    ∃ books next, search_books_ilike db query author genre published_year limit
      cursor sortAsc = .ok (books, next) := by
  unfold search_books_ilike
  rw [h]
  exact ⟨_, _, rfl⟩

/-- A bad cursor makes the raw-predicate search raise. -/
theorem search_where_cursor_error (db : List Book) (sqlSem : String → Book → Bool)
    (wc : String) (limit : Nat) (cursor : Option (Except String Json))
    (sortAsc : Bool) (e : String) (h : rankOffset cursor = .error e) :
    search_books_with_where_clause db sqlSem wc limit cursor sortAsc = .error e := by
  unfold search_books_with_where_clause
  rw [h]

/-- A good cursor makes the raw-predicate search succeed. -/
theorem search_where_cursor_ok (db : List Book) (sqlSem : String → Book → Bool)
    (wc : String) (limit : Nat) (cursor : Option (Except String Json))
    (sortAsc : Bool) (off : Int) (h : rankOffset cursor = .ok off) :
    ∃ books next, search_books_with_where_clause db sqlSem wc limit cursor sortAsc =
      .ok (books, next) := by
  unfold search_books_with_where_clause
  rw [h]
  exact ⟨_, _, rfl⟩

/-- Over-long queries reaching the fallback tier get the 400. -/
theorem nlFallbackTier_toolong (db : List Book) (jsonParse : String → Except String Json)
    (q : String) (limit : Nat) (cursor : Option (Except String Json)) (sortAsc : Bool)
    (o2 : Oracle) (sqlResult : SqlResult) (sqlStage : Bool) (execWhere : Option String)
    (h : (decide (500 < q.length) && !q.isEmpty) = true) :
    (nlFallbackTier db jsonParse q limit cursor sortAsc o2 sqlResult sqlStage
        execWhere).1 =
      .error (.badRequest "Query too long (max 500 characters)") := by
  unfold nlFallbackTier
  rw [if_pos h]

/-- A bad cursor reaching the fallback tier surfaces as a 400. -/
theorem nlFallbackTier_cursor_error (db : List Book)
    (jsonParse : String → Except String Json) (q : String) (limit : Nat)
    (cursor : Option (Except String Json)) (sortAsc : Bool) (o2 : Oracle)
    (sqlResult : SqlResult) (sqlStage : Bool) (execWhere : Option String) (e : String)
    (hlen : (decide (500 < q.length) && !q.isEmpty) = false)
    (hc : rankOffset cursor = .error e) :
    (nlFallbackTier db jsonParse q limit cursor sortAsc o2 sqlResult sqlStage
        execWhere).1 =
      .error (.badRequest e) := by
  unfold nlFallbackTier
  rw [if_neg (by rw [hlen]; exact Bool.false_ne_true)]
  split <;>
    (dsimp only; rw [search_ilike_cursor_error _ _ _ _ _ _ _ _ _ hc])

/-- With an in-bounds query and a good cursor, the fallback tier returns
the filter-extraction response carrying the translator's fallback
reason. -/
theorem nlFallbackTier_success (db : List Book)
    (jsonParse : String → Except String Json) (q : String) (limit : Nat)
    (cursor : Option (Except String Json)) (sortAsc : Bool) (o2 : Oracle)
    (sqlResult : SqlResult) (sqlStage : Bool) (execWhere : Option String) (off : Int)
    (hlen : (decide (500 < q.length) && !q.isEmpty) = false)
    (hc : rankOffset cursor = .ok off) :
    ∃ r, (nlFallbackTier db jsonParse q limit cursor sortAsc o2 sqlResult sqlStage
        execWhere).1 = .ok r ∧
      r.method = "filter_extraction" ∧ r.fallback_used = true ∧
      r.fallback_reason = sqlResult.fallback_reason := by
  unfold nlFallbackTier
  rw [if_neg (by rw [hlen]; exact Bool.false_ne_true)]
  split <;>
  · dsimp only
    obtain ⟨books, next, hok⟩ := search_ilike_cursor_ok db _ _ _ _ limit cursor sortAsc
      off hc
    rw [hok]
    exact ⟨_, rfl, rfl, rfl, rfl⟩

/-- A failed translation always carries a fallback reason. -/
theorem nl_to_sql_where_failure_reason (q : String) (o : Oracle) (A G : List String)
    (h : (nl_to_sql_where q o A G).success = false) :
    ∃ r, (nl_to_sql_where q o A G).fallback_reason = some r := by
  unfold nl_to_sql_where at h ⊢
  by_cases hq : (pyStrip q).isEmpty = true
  · rw [if_pos hq]
    exact ⟨_, rfl⟩
  · rw [if_neg hq] at h ⊢
    cases o with
    | noKey => exact ⟨_, rfl⟩
    | raised m => exact ⟨_, rfl⟩
    | reply t =>
      by_cases hv : (validate_where_clause (cleanWhereClause t)).1 = true
      · simp only [hv, Bool.not_true, Bool.false_eq_true, if_false] at h
        exact Bool.noConfusion h
      · have hv2 : (validate_where_clause (cleanWhereClause t)).1 = false := by
          cases hvv : (validate_where_clause (cleanWhereClause t)).1
          · rfl
          · exact absurd hvv hv
        simp only [hv2, Bool.not_false, if_true]
        exact ⟨_, rfl⟩

/-! ## Claim C9 -/

/-- A 501-character query. -/
def q501 : String := String.mk (List.replicate 501 'a')

/-- A benign oracle-generated clause. -/
def sqlTitleX : String := "title ILIKE " ++ sqStr ++ "%x%" ++ sqStr

/-- A non-empty string is not `""`-empty. -/
theorem isEmpty_false_of_length_pos (s : String) (h : 0 < s.length) :
    s.isEmpty = false := by
  cases he : s.isEmpty
  · rfl
  · have : s = "" := (String.isEmpty_iff _).mp he
    rw [this] at h
    exact absurd h (by decide)

set_option maxRecDepth 40000 in
/-- Counterexample to C9: a 501-character query is not rejected before the
cascade — the SQL-generation stage runs, and when it succeeds the request
is served normally (`method = "sql_where_clause"`), with no error at
all. -/
theorem client_error_after_cascade_cex :
    (search_books_natural_language [] (fun _ _ => false) noJson q501 10 none true
        (.reply sqlTitleX) .noKey).1 =
      .ok { method := "sql_where_clause", where_clause := some sqlTitleX,
            extracted_filters := none, books := [], count := 0, next_cursor := none,
            fallback_used := false, fallback_reason := none } ∧
    (search_books_natural_language [] (fun _ _ => false) noJson q501 10 none true
        (.reply sqlTitleX) .noKey).2.sqlOracleCalled = true ∧
    500 < q501.length := by
  refine ⟨by rfl, by decide, by decide⟩

/-- Claim C9 as amended: over-long queries and malformed cursors are not
rejected before the cascade.  (1) A query longer than 500 characters is
rejected with the descriptive 400 only at the extraction tier, hence only
when the SQL tier fails; (2) the SQL-generation stage runs whenever the
query is non-blank, regardless of client-input validity; (3) with the SQL
tier failing and an in-bounds query, a malformed cursor surfaces as a 400
from the fallback tier, after the oracle stage; page-size bounds are
enforced by the framework `Query(ge=1, le=100)` declaration before the
handler body. -/
theorem late_client_input_rejection (db : List Book) (sqlSem : String → Book → Bool)
    (jsonParse : String → Except String Json) (q : String) (limit : Nat)
    (cursor : Option (Except String Json)) (sortAsc : Bool) (o1 o2 : Oracle) :
    (500 < q.length →
      (nl_to_sql_where q o1 (get_all_authors db) (get_all_genres db)).success = false →
      (search_books_natural_language db sqlSem jsonParse q limit cursor sortAsc
          o1 o2).1 =
        .error (.badRequest "Query too long (max 500 characters)")) ∧
    ((search_books_natural_language db sqlSem jsonParse q limit cursor sortAsc
        o1 o2).2.sqlOracleCalled = !(pyStrip q).isEmpty) ∧
    (∀ e, q.length ≤ 500 →
      (nl_to_sql_where q o1 (get_all_authors db) (get_all_genres db)).success = false →
      rankOffset cursor = .error e →
      (search_books_natural_language db sqlSem jsonParse q limit cursor sortAsc
          o1 o2).1 =
        .error (.badRequest e)) := by
  refine ⟨?_, ?_, ?_⟩
  · intro hlen hs
    unfold search_books_natural_language
    rw [if_neg (by rw [hs]; exact Bool.false_ne_true)]
    refine nlFallbackTier_toolong _ _ _ _ _ _ _ _ _ _ ?_
    rw [isEmpty_false_of_length_pos q (by omega)]
    simp [hlen]
  · unfold search_books_natural_language
    by_cases hs : (nl_to_sql_where q o1 (get_all_authors db) (get_all_genres db)).success
      = true
    · obtain ⟨t, ho, hv, hwc⟩ := nl_to_sql_where_success_shape _ _ _ _ hs
      rw [if_pos hs, hwc]
      dsimp only
      cases hex : search_books_with_where_clause db sqlSem
          (_apply_fuzzy_matching_to_where_clause (cleanWhereClause t)
            (get_all_authors db) (get_all_genres db)) limit cursor sortAsc with
      | ok res =>
        cases res with
        | mk books next => rfl
      | error e =>
        exact (nlFallbackTier_audit db jsonParse q limit cursor sortAsc o2 _ _ none).2
    · rw [if_neg hs]
      exact (nlFallbackTier_audit db jsonParse q limit cursor sortAsc o2 _ _ none).2
  · intro e hlen hs hc
    unfold search_books_natural_language
    rw [if_neg (by rw [hs]; exact Bool.false_ne_true)]
    refine nlFallbackTier_cursor_error _ _ _ _ _ _ _ _ _ _ _ ?_ hc
    have : decide (500 < q.length) = false := by
      simp
      omega
    rw [this]
    rfl

set_option maxRecDepth 40000 in
/-- Witness for the amended C9: the 501-character query with a failing
SQL tier is rejected by the extraction tier with the descriptive 400. -/
theorem late_client_input_rejection_witness :
    (search_books_natural_language [] (fun _ _ => false) noJson q501 10 none true
        (.raised "boom") .noKey).1 =
      .error (.badRequest "Query too long (max 500 characters)") :=
  (late_client_input_rejection [] (fun _ _ => false) noJson q501 10 none true
      (.raised "boom") .noKey).1 (by decide) (by decide)

/-! ## Claim C3 -/

/-- Claim C3 (fallback guarantee): for every well-formed client input
(query within the 500-character bound, decodable cursor) and every pair
of oracle behaviours — a reply, a raised exception standing for a
timeout, error or quota exhaustion, or a missing API key — the route
returns a non-error response whose method field is "sql_where_clause" or
"filter_extraction", and whenever the fallback tier was used the
response carries a fallback reason; an oracle-side failure never
surfaces as an error to the caller. -/
theorem fallback_guarantee (db : List Book) (sqlSem : String → Book → Bool)
    (jsonParse : String → Except String Json) (q : String) (limit : Nat)
    (cursor : Option (Except String Json)) (sortAsc : Bool) (o1 o2 : Oracle)
    (off : Int) (hlen : q.length ≤ 500) (hc : rankOffset cursor = .ok off) :
    ∃ r, (search_books_natural_language db sqlSem jsonParse q limit cursor sortAsc
        o1 o2).1 = .ok r ∧
      (r.method = "sql_where_clause" ∨ r.method = "filter_extraction") ∧
      (r.fallback_used = true → ∃ s, r.fallback_reason = some s) := by
  have hlen2 : (decide (500 < q.length) && !q.isEmpty) = false := by
    have : decide (500 < q.length) = false := by
      simp
      omega
    rw [this]
    rfl
  unfold search_books_natural_language
  by_cases hs : (nl_to_sql_where q o1 (get_all_authors db) (get_all_genres db)).success
    = true
  · obtain ⟨t, ho, hv, hwc⟩ := nl_to_sql_where_success_shape _ _ _ _ hs
    rw [if_pos hs, hwc]
    dsimp only
    obtain ⟨books, next, hok⟩ := search_where_cursor_ok db sqlSem _ limit cursor
      sortAsc off hc
    rw [hok]
    exact ⟨_, rfl, Or.inl rfl, fun hfu => Bool.noConfusion hfu⟩
  · have hs2 : (nl_to_sql_where q o1 (get_all_authors db)
        (get_all_genres db)).success = false := by
      cases hss : (nl_to_sql_where q o1 (get_all_authors db)
          (get_all_genres db)).success
      · rfl
      · exact absurd hss hs
    rw [if_neg (by rw [hs2]; exact Bool.false_ne_true)]
    obtain ⟨r, hr, hm, hfu, hfr⟩ := nlFallbackTier_success db jsonParse q limit cursor
      sortAsc o2 (nl_to_sql_where q o1 (get_all_authors db) (get_all_genres db))
      (!(pyStrip q).isEmpty) none off hlen2 hc
    obtain ⟨s, hsr⟩ := nl_to_sql_where_failure_reason q o1 (get_all_authors db)
      (get_all_genres db) hs2
    exact ⟨r, hr, Or.inr hm, fun _ => ⟨s, by rw [hfr, hsr]⟩⟩

/-- Witness for C3: a missing API key on the SQL tier and a quota error
on the extraction tier still produce a non-error response with a defined
method and a fallback reason. -/
theorem fallback_guarantee_witness :
    ∃ r, (search_books_natural_language [] (fun _ _ => false) noJson "hi" 10 none
        true .noKey (.raised "quota")).1 = .ok r ∧
      (r.method = "sql_where_clause" ∨ r.method = "filter_extraction") ∧
      (r.fallback_used = true → ∃ s, r.fallback_reason = some s) :=
  fallback_guarantee [] (fun _ _ => false) noJson "hi" 10 none true .noKey
    (.raised "quota") 0 (by decide) (by rfl)

/-! ## Claim C7 -/

/-- `fr` at a positive denominator keeps its numerator. -/
theorem fr_num (a : Int) (b : Nat) (h : 0 < b) : (fr a b).num = a := by
  rw [fr, dif_pos h]

/-- `fr` at a positive denominator keeps its denominator. -/
theorem fr_den (a : Int) (b : Nat) (h : 0 < b) : (fr a b).den = b := by
  rw [fr, dif_pos h]

/-- Division by a positive natural keeps the numerator. -/
theorem divNat_num (x : Frac) (n : Nat) (h : 0 < n) : (x.divNat n).num = x.num := by
  rw [Frac.divNat, dif_pos h]

/-- `dropWhile` is the identity on a replicated character the predicate
rejects. -/
theorem dropWhile_rep (p : Char → Bool) (c : Char) (n : Nat) (h : p c = false) :
    List.dropWhile p (List.replicate n c) = List.replicate n c := by
  cases n with
  | zero => rfl
  | succ m =>
    rw [List.replicate_succ, List.dropWhile_cons, h]
    simp

/-- The 201-character author candidate of the discard scenario. -/
def xs201 : String := String.mk (List.replicate 201 'x')

/-- Stripping leaves the all-`x` string unchanged. -/
theorem pyStrip_xs201 : pyStrip xs201 = xs201 := by
  unfold pyStrip xs201
  rw [show (String.mk (List.replicate 201 'x')).toList = List.replicate 201 'x' from
    rfl]
  rw [dropWhile_rep _ _ _ (by decide), List.reverse_replicate,
    dropWhile_rep _ _ _ (by decide), List.reverse_replicate]

/-- Lowercasing leaves the all-`x` string unchanged. -/
theorem pyLower_xs201 : pyLower xs201 = xs201 := by
  unfold pyLower xs201
  rw [show (String.mk (List.replicate 201 'x')).toList = List.replicate 201 'x' from
    rfl]
  rw [List.map_replicate, show Char.toLower 'x' = 'x' from by decide]

/-- With disjoint alphabets every common-suffix length is zero. -/
theorem suffLen_disjoint (a b : List Char) (hd : ∀ c ∈ a, c ∉ b) (i j : Nat) :
    suffLen a b i j = 0 := by
  have key : ∀ i j : Nat, ((a[i]?).isSome && (a[i]? == b[j]?)) = false := by
    intro i j
    cases hai : a[i]? with
    | none => rfl
    | some c =>
      cases hbj : b[j]? with
      | none => rfl
      | some d =>
        have hca : c ∈ a := by
          obtain ⟨h, rfl⟩ := List.getElem?_eq_some.mp hai
          exact List.getElem_mem _
        have hdb : d ∈ b := by
          obtain ⟨h, rfl⟩ := List.getElem?_eq_some.mp hbj
          exact List.getElem_mem _
        have hne : c ≠ d := fun he => hd c hca (he ▸ hdb)
        simp [hne]
  rcases i with _ | i <;> rcases j with _ | j <;>
    simp only [suffLen, key, Bool.false_eq_true, if_false]

/-- With disjoint alphabets every clipped cell length is zero. -/
theorem cellLen_disjoint (a b : List Char) (hd : ∀ c ∈ a, c ∉ b)
    (alo blo i j : Nat) : cellLen a b alo blo i j = 0 := by
  simp [cellLen, suffLen_disjoint a b hd]

/-- Folding `max` over an all-zero score is zero. -/
theorem foldl_max_cells (l : List (Nat × Nat)) (f : Nat × Nat → Nat)
    (h : ∀ p ∈ l, f p = 0) :
    l.foldl (fun acc p => max acc (f p)) 0 = 0 := by
  induction l with
  | nil => rfl
  | cons x t ih =>
    rw [List.foldl_cons, h x (List.mem_cons_self x t), Nat.max_self]
    exact ih (fun p hp => h p (List.mem_cons_of_mem x hp))

/-- With disjoint alphabets the longest match is empty. -/
theorem findLongestMatch_disjoint (a b : List Char) (hd : ∀ c ∈ a, c ∉ b)
    (alo ahi blo bhi : Nat) :
    findLongestMatch a b alo ahi blo bhi = (alo, blo, 0) := by
  unfold findLongestMatch
  dsimp only
  rw [foldl_max_cells _ _ (fun p _ => cellLen_disjoint a b hd alo blo p.1 p.2)]
  simp

/-- With disjoint alphabets no matching blocks accumulate. -/
theorem matchingTotal_disjoint (a b : List Char) (hd : ∀ c ∈ a, c ∉ b) :
    ∀ fuel alo ahi blo bhi, matchingTotal a b fuel alo ahi blo bhi = 0 := by
  intro fuel alo ahi blo bhi
  cases fuel with
  | zero => rfl
  | succ f =>
    simp only [matchingTotal]
    rw [findLongestMatch_disjoint a b hd]
    rfl

/-- With disjoint alphabets the ratio is zero. -/
theorem sequenceSimilarity_disjoint (a b : String)
    (hd : ∀ c ∈ a.toList, c ∉ b.toList) (hz : a.length + b.length ≠ 0) :
    sequenceSimilarity a b = fr 0 (a.length + b.length) := by
  unfold sequenceSimilarity seqMatchSize calcSimilarity
  rw [matchingTotal_disjoint _ _ hd, if_neg hz]
  norm_num

/-- Clamping a non-positive score to `[0, 1]` yields zero. -/
theorem clamp_nonpos (x : Frac) (h : x.num ≤ 0) :
    (fr 0 1).fmax ((fr 1 1).fmin x) = fr 0 1 := by
  have hden : (0 : Int) < x.den := Int.natCast_pos.mpr x.denPos
  have h1 : (fr 1 1).ltB x = false := by
    apply decide_eq_false
    show ¬ ((fr 1 1).num * (x.den : Int) < x.num * ((fr 1 1).den : Int))
    rw [fr_num _ _ Nat.one_pos, fr_den _ _ Nat.one_pos]
    push_cast
    nlinarith
  have h2 : (fr 0 1).ltB x = false := by
    apply decide_eq_false
    show ¬ ((fr 0 1).num * (x.den : Int) < x.num * ((fr 0 1).den : Int))
    rw [fr_num _ _ Nat.one_pos, fr_den _ _ Nat.one_pos]
    nlinarith
  rw [Frac.fmin, h1]
  simp only [Bool.false_eq_true, if_false]
  rw [Frac.fmax, h2]
  simp

/-- Disjoint alphabets and a short second string put the enhanced match
score at exactly zero. -/
theorem calcMatchScore_disjoint (q c : String)
    (hd : ∀ ch ∈ q.toList, ch ∉ c.toList) (hq : 0 < q.length)
    (hmin : min q.length c.length < 3) :
    _calculate_match_score q c = fr 0 1 := by
  unfold _calculate_match_score
  dsimp only
  rw [if_neg (by omega : ¬ 3 ≤ min q.length c.length)]
  rw [sequenceSimilarity_disjoint q c hd (by omega)]
  rw [if_pos (by omega : 0 < max q.length c.length)]
  apply clamp_nonpos
  simp only [Frac.sub, Frac.mul]
  rw [fr_num 0 _ (by omega), fr_den 0 _ (by omega),
    divNat_num _ _ (by omega : 0 < max q.length c.length),
    fr_num _ 1 Nat.one_pos, fr_num 1 10 (by omega)]
  have hnn : (0 : Int) ≤ ((max q.length c.length - min q.length c.length : Nat) : Int)
      * 1 * ((q.length + c.length : Nat) : Int) := by positivity
  nlinarith

/-- The author-matching procedure exactly as the claim words it (with the
single amendment the counterexample forces on the final clause): exact
case-insensitive match short-circuits; otherwise every full name and
every name component is scored with the enhanced similarity (base ratio,
prefix bonus up to +0.15, length penalty, clamp), +0.1 when the candidate
equals the first name-component; the best full name is returned iff its
score reaches 0.65; below that the original string is kept only when it
has at most 200 characters, else discarded. -/
def claimAuthorMatch (author : String) (vocab : List String) : Option String :=
  match vocab.find? (fun x => pyLower x == pyLower author) with
  | some x => some x
  | none =>
    let best := vocab.foldl (fun acc full =>
      (authorCandidates full).foldl (fun acc2 cand =>
        let score0 := _calculate_match_score (pyLower author) (pyLower cand)
        let score := if cand == firstComponent full then score0.add (fr 1 10) else score0
        bestStep acc2 (score, full)) acc) ((fr 0 1), (none : Option String))
    if (fr 13 20).leB best.1 then best.2
    else if author.length ≤ 200 then some author else none

set_option maxRecDepth 40000 in
/-- Counterexample to C7 as stated: a non-blank 201-character author
candidate scoring below the 0.65 threshold against vocabulary `["ab"]`
is DISCARDED (the author filter comes back empty), not kept — the
sub-threshold keep applies only to strings of at most 200 characters. -/
theorem author_discard_cex :
    validateAuthorFilter xs201 ["ab"] = none ∧
    (pyStrip xs201).isEmpty = false ∧ 200 < (pyStrip xs201).length := by
  have hd : ∀ c ∈ (pyLower xs201).toList, c ∉ (pyLower "ab").toList := by
    rw [pyLower_xs201]
    intro c hc
    rw [List.eq_of_mem_replicate hc]
    decide
  have hscore : _calculate_match_score (pyLower xs201) (pyLower "ab") = fr 0 1 := by
    apply calcMatchScore_disjoint _ _ hd
    · rw [pyLower_xs201]
      decide
    · rw [pyLower_xs201]
      decide
  have hfind : List.find? (fun x => pyLower x == pyLower xs201) ["ab"] = none := by
    rw [pyLower_xs201]
    decide
  refine ⟨?_, ?_, ?_⟩
  · unfold validateAuthorFilter
    rw [pyStrip_xs201]
    dsimp only
    rw [if_neg (by decide : ¬ (xs201.isEmpty = true)),
      if_neg (by decide : ¬ ((["ab"] : List String).isEmpty = true)), hfind]
    dsimp only
    rw [List.foldl_cons, List.foldl_nil,
      show authorCandidates "ab" = ["ab", "ab"] from rfl,
      List.foldl_cons, List.foldl_cons, List.foldl_nil]
    rw [hscore]
    decide
  · rw [pyStrip_xs201]
    decide
  · rw [pyStrip_xs201]
    decide

/-- Claim C7 as amended: for a candidate that is non-blank after
stripping and a non-empty vocabulary, the author branch of
`validate_filters` follows exactly the claimed procedure on the stripped
candidate, with the sub-threshold keep restricted to candidates of at
most 200 characters (longer ones are discarded). -/
theorem author_fuzzy_procedure (author : String) (vocab : List String)
    (hne : (pyStrip author).isEmpty = false) (hvoc : vocab.isEmpty = false) :
    validateAuthorFilter author vocab = claimAuthorMatch (pyStrip author) vocab := by
  unfold validateAuthorFilter claimAuthorMatch
  dsimp only
  rw [if_neg (by rw [hne]; exact Bool.false_ne_true),
    if_neg (by rw [hvoc]; exact Bool.false_ne_true)]

/-- Witness for the amended C7 at a concrete input. -/
theorem author_fuzzy_procedure_witness :
    validateAuthorFilter "bob" ["Bob Smith"] =
      claimAuthorMatch (pyStrip "bob") ["Bob Smith"] :=
  author_fuzzy_procedure "bob" ["Bob Smith"] (by decide) (by decide)

/-! ## Claim C4 -/

/-- Arithmetic reading of the non-strict compound-key comparison. -/
theorem keyLeB_iff (x y : Nat × Nat) :
    keyLeB x y = true ↔ (x.1 < y.1 ∨ (x.1 = y.1 ∧ x.2 ≤ y.2)) := by
  simp [keyLeB]

/-- Arithmetic reading of the strict compound-key comparison. -/
theorem keyLtB_iff (x y : Nat × Nat) :
    keyLtB x y = true ↔ (x.1 < y.1 ∨ (x.1 = y.1 ∧ x.2 < y.2)) := by
  simp [keyLtB]

/-- The strict comparison is irreflexive. -/
theorem keyLtB_irrefl (x : Nat × Nat) : keyLtB x x = false := by
  cases h : keyLtB x x
  · rfl
  · exact absurd ((keyLtB_iff x x).mp h) (by omega)

/-- The strict comparison is asymmetric. -/
theorem keyLtB_asymm {x y : Nat × Nat} (h : keyLtB x y = true) :
    keyLtB y x = false := by
  cases h2 : keyLtB y x
  · rfl
  · have h1 := (keyLtB_iff x y).mp h
    have h3 := (keyLtB_iff y x).mp h2
    exfalso
    omega

instance : IsTrans Book rdescP where
  trans a b c hab hbc := by
    have h1 := (keyLeB_iff _ _).mp hab
    have h2 := (keyLeB_iff _ _).mp hbc
    exact (keyLeB_iff _ _).mpr (by omega)

instance : IsTotal Book rdescP where
  total a b := by
    by_cases h : keyLeB (bkey b) (bkey a) = true
    · exact Or.inl h
    · refine Or.inr ((keyLeB_iff _ _).mpr ?_)
      have h2 : ¬ ((bkey b).1 < (bkey a).1 ∨ ((bkey b).1 = (bkey a).1 ∧
          (bkey b).2 ≤ (bkey a).2)) := fun hh => h ((keyLeB_iff _ _).mpr hh)
      omega

/-- Strict descending recency order on books (distinct compound keys,
larger first): the order in which `BaseRepository.list` emits rows when
the key invariant holds. -/
def sdescP (a b : Book) : Prop := keyLtB (bkey b) (bkey a) = true

instance : IsAntisymm Book sdescP where
  antisymm a b hab hba := by
    have := keyLtB_asymm hab
    rw [hba] at this
    exact Bool.noConfusion this

/-- A non-strictly sorted list with pairwise-distinct keys is strictly
sorted. -/
theorem pairwise_sdescP_of_sorted {l : List Book} (hs : l.Pairwise rdescP)
    (hnd : l.Pairwise (fun a b => bkey a ≠ bkey b)) : l.Pairwise sdescP := by
  refine (hs.and hnd).imp ?_
  rintro a b ⟨hle, hne⟩
  have h1 := (keyLeB_iff _ _).mp hle
  refine (keyLtB_iff _ _).mpr ?_
  have h2 : (bkey a).1 ≠ (bkey b).1 ∨ (bkey a).2 ≠ (bkey b).2 := by
    by_contra hc
    push_neg at hc
    exact hne (Prod.ext hc.1 hc.2)
  omega

/-- Strictly sorted lists have pairwise-distinct elements. -/
theorem nodup_of_sdescP {l : List Book} (hs : l.Pairwise sdescP) : l.Nodup := by
  refine hs.imp ?_
  intro a b hab he
  subst he
  unfold sdescP at hab
  rw [keyLtB_irrefl] at hab
  exact Bool.noConfusion hab

/-- Filtering a strictly descending list by `afterDesc` at the key of its
`k`-th element keeps exactly the elements after position `k`. -/
theorem filter_afterDesc_drop : ∀ (l : List Book), l.Pairwise sdescP →
    ∀ k (hk : k < l.length),
      l.filter (afterDesc (bkey (l.get ⟨k, hk⟩))) = l.drop (k + 1)
  | [], _, k, hk => absurd hk (by simp)
  | x :: t, hp, 0, hk => by
    have hhead : ∀ b ∈ t, sdescP x b := (List.pairwise_cons.mp hp).1
    rw [show (x :: t).get ⟨0, hk⟩ = x from rfl]
    rw [List.filter_cons]
    rw [show afterDesc (bkey x) x = false from keyLtB_irrefl _]
    simp only [Bool.false_eq_true, if_false]
    have hall : ∀ b ∈ t, afterDesc (bkey x) b = true := fun b hb => hhead b hb
    rw [List.filter_eq_self.mpr hall]
    rfl
  | x :: t, hp, k+1, hk => by
    have hhead : ∀ b ∈ t, sdescP x b := (List.pairwise_cons.mp hp).1
    have hk' : k < t.length := by
      have := hk
      simp only [List.length_cons] at this
      omega
    rw [show (x :: t).get ⟨k+1, hk⟩ = t.get ⟨k, hk'⟩ from rfl]
    rw [List.filter_cons]
    rw [show afterDesc (bkey (t.get ⟨k, hk'⟩)) x = false from
      keyLtB_asymm (hhead _ (t.get_mem _ _))]
    simp only [Bool.false_eq_true, if_false]
    rw [filter_afterDesc_drop t (List.pairwise_cons.mp hp).2 k hk']
    rfl

/-- Distinct keys survive permutations and sublists down to the cursor
filter, so sorting after the cursor filter agrees with filtering the
fully sorted list. -/
theorem sort_filter_comm (rows : List Book) (c : Nat × Nat)
    (hstrict : (rows.insertionSort rdescP).Pairwise sdescP) :
    (rows.filter (afterDesc c)).insertionSort rdescP =
      (rows.insertionSort rdescP).filter (afterDesc c) := by
  have hne : (rows.insertionSort rdescP).Pairwise (fun a b => bkey a ≠ bkey b) :=
    hstrict.imp (fun h he => by
      unfold sdescP at h
      rw [he, keyLtB_irrefl] at h
      exact Bool.noConfusion h)
  have h1 : rows.Pairwise (fun a b => bkey a ≠ bkey b) :=
    ((List.perm_insertionSort rdescP rows).pairwise_iff
      (fun h he => h he.symm)).mp hne
  have h2 : (rows.filter (afterDesc c)).Pairwise (fun a b => bkey a ≠ bkey b) :=
    h1.sublist (List.filter_sublist _)
  have h3 : ((rows.filter (afterDesc c)).insertionSort rdescP).Pairwise
      (fun a b => bkey a ≠ bkey b) :=
    ((List.perm_insertionSort rdescP _).pairwise_iff
      (fun h he => h he.symm)).mpr h2
  apply List.eq_of_perm_of_sorted (r := sdescP)
  · exact (List.perm_insertionSort _ _).trans
      ((List.perm_insertionSort rdescP rows).symm.filter _)
  · exact pairwise_sdescP_of_sorted (List.sorted_insertionSort rdescP _) h3
  · exact hstrict.filter _

/-- The fully sorted matching rows of a `BaseRepository.list` query in
the default descending direction. -/
def sortedMatches (db : List Book) (P : Book → Bool) : List Book :=
  (db.filter P).insertionSort rdescP

/-- `BaseRepository.list` in the descending direction, with the cursor
branch written out. -/
theorem list_desc_unfold (db : List Book) (P : Book → Bool) (L : Nat)
    (cur : Option (Nat × Nat)) :
    BaseRepository.list db P L cur false =
      (let rows2 := match cur with
        | none => db.filter P
        | some c => (db.filter P).filter (afterDesc c)
       let fetched := (rows2.insertionSort rdescP).take (L+1)
       if L < fetched.length then (fetched.take L, (fetched.take L).getLast?.map bkey)
       else (fetched, none)) := by
  cases cur <;> rfl

/-- A short remainder is returned whole, with a null next-cursor. -/
theorem list_desc_last (db : List Book) (P : Book → Bool) (L : Nat)
    (cur : Option (Nat × Nat)) (T : List Book)
    (hT : (match cur with
      | none => db.filter P
      | some c => (db.filter P).filter (afterDesc c)).insertionSort rdescP = T)
    (hge : T.length ≤ L) :
    BaseRepository.list db P L cur false = (T, none) := by
  rw [list_desc_unfold]
  dsimp only
  rw [hT]
  rw [List.take_of_length_le (by omega : T.length ≤ L + 1)]
  rw [if_neg (by omega : ¬ L < T.length)]

/-- A long remainder is trimmed to the page size, with the compound key
of the last returned row as the next cursor. -/
theorem list_desc_more (db : List Book) (P : Book → Bool) (L : Nat)
    (cur : Option (Nat × Nat)) (T : List Book) (hL : 1 ≤ L)
    (hT : (match cur with
      | none => db.filter P
      | some c => (db.filter P).filter (afterDesc c)).insertionSort rdescP = T)
    (hlt : L < T.length) :
    BaseRepository.list db P L cur false =
      (T.take L, some (bkey (T.get ⟨L - 1, by omega⟩))) := by
  rw [list_desc_unfold]
  dsimp only
  rw [hT]
  rw [if_pos (by rw [List.length_take]; omega : L < (T.take (L + 1)).length)]
  rw [List.take_take, show min L (L + 1) = L from by omega]
  congr 1
  rw [List.getLast?_eq_getElem?]
  rw [List.length_take, show min L T.length = L from by omega]
  rw [List.getElem?_take_of_lt (by omega : L - 1 < L)]
  rw [List.getElem?_eq_getElem (by omega : L - 1 < T.length)]
  simp [List.get_eq_getElem]

/-- Walking the cursor chain from position `k` of the sorted matching
rows returns exactly the remaining suffix, given enough fuel. -/
theorem walk_desc (db : List Book) (P : Book → Bool) (L : Nat) (hL : 1 ≤ L)
    (hstrict : (sortedMatches db P).Pairwise sdescP) :
    ∀ fuel k (cur : Option (Nat × Nat)),
      (sortedMatches db P).length - k + 1 ≤ fuel →
      (match cur with
        | none => k = 0
        | some c => (sortedMatches db P).filter (afterDesc c) =
            (sortedMatches db P).drop k) →
      walkPages db P L false fuel cur = some ((sortedMatches db P).drop k) := by
  intro fuel
  induction fuel with
  | zero =>
    intro k cur hfuel hcur
    omega
  | succ f ih =>
    intro k cur hfuel hcur
    have hTeq : (match cur with
        | none => db.filter P
        | some c => (db.filter P).filter (afterDesc c)).insertionSort rdescP =
        (sortedMatches db P).drop k := by
      cases cur with
      | none =>
        dsimp only
        rw [hcur, List.drop_zero]
        rfl
      | some c =>
        dsimp only
        rw [sort_filter_comm _ _ hstrict]
        exact hcur
    by_cases hlt : L < ((sortedMatches db P).drop k).length
    · have hres := list_desc_more db P L cur ((sortedMatches db P).drop k) hL hTeq hlt
      have hidx : k + (L - 1) < (sortedMatches db P).length := by
        rw [List.length_drop] at hlt
        omega
      have hget : ((sortedMatches db P).drop k).get ⟨L - 1, by omega⟩ =
          (sortedMatches db P).get ⟨k + (L - 1), hidx⟩ := by
        simp [List.get_eq_getElem]
      have hcur2 : (sortedMatches db P).filter
          (afterDesc (bkey (((sortedMatches db P).drop k).get ⟨L - 1, by omega⟩))) =
          (sortedMatches db P).drop (k + L) := by
        rw [hget, filter_afterDesc_drop _ hstrict (k + (L - 1)) hidx]
        congr 1
        omega
      have hrec := ih (k + L) (some (bkey (((sortedMatches db P).drop k).get
          ⟨L - 1, by omega⟩)))
        (by rw [List.length_drop] at hlt; omega) hcur2
      unfold walkPages
      dsimp only
      rw [hres]
      dsimp only
      rw [hrec]
      dsimp only
      have hdrop : (sortedMatches db P).drop (k + L) =
          ((sortedMatches db P).drop k).drop L := by
        rw [List.drop_drop]
      rw [hdrop, List.take_append_drop]
    · have hres := list_desc_last db P L cur ((sortedMatches db P).drop k) hTeq
        (by omega)
      unfold walkPages
      dsimp only
      rw [hres]

/-- Claim C4 (pagination completeness): with distinct record ids (the
primary-key invariant that makes `(created_at, id)` a strict total
order), any page size in `[1, 100]` and any fixed filter, walking the
compound-cursor chain of `BaseRepository.list` from the null cursor to
exhaustion (descending direction, the repository default) terminates
with a null next-cursor having produced exactly the matching records:
a permutation of the filtered dataset, with no duplicates and no
omissions. -/
theorem pagination_completeness (db : List Book) (P : Book → Bool) (L : Nat)
    (hL1 : 1 ≤ L) (hL2 : L ≤ 100) (hids : (db.map Book.id).Nodup) :
    ∃ out, paginateChain db P L false = some out ∧
      out.Perm (db.filter P) ∧ out.Nodup := by
  have hne : db.Pairwise (fun a b => bkey a ≠ bkey b) :=
    (List.pairwise_map.mp hids).imp (fun h he => h (congrArg Prod.snd he))
  have hne2 : (db.filter P).Pairwise (fun a b => bkey a ≠ bkey b) :=
    hne.sublist (List.filter_sublist _)
  have hne3 : (sortedMatches db P).Pairwise (fun a b => bkey a ≠ bkey b) :=
    ((List.perm_insertionSort rdescP (db.filter P)).pairwise_iff
      (fun h he => h he.symm)).mpr hne2
  have hsorted : (sortedMatches db P).Pairwise rdescP :=
    List.sorted_insertionSort rdescP (db.filter P)
  have hstrict : (sortedMatches db P).Pairwise sdescP :=
    pairwise_sdescP_of_sorted hsorted hne3
  have hlen : (sortedMatches db P).length ≤ db.length := by
    unfold sortedMatches
    rw [(List.perm_insertionSort rdescP (db.filter P)).length_eq]
    exact List.length_filter_le _ _
  have hwalk := walk_desc db P L hL1 hstrict (db.length + 1) 0 none (by omega) rfl
  rw [List.drop_zero] at hwalk
  refine ⟨sortedMatches db P, ?_, ?_, ?_⟩
  · unfold paginateChain
    exact hwalk
  · exact List.perm_insertionSort rdescP (db.filter P)
  · exact nodup_of_sdescP hstrict

/-- A three-record dataset with distinct ids and a creation-timestamp
tie between the last two records. -/
def paginationDb : List Book :=
  [{ id := 1, title := "A", description := "", isbn := "", author := "a",
     genre := "g", published_year := 2020, created_at := 5 },
   { id := 2, title := "B", description := "", isbn := "", author := "b",
     genre := "g", published_year := 2021, created_at := 7 },
   { id := 3, title := "C", description := "", isbn := "", author := "c",
     genre := "g", published_year := 2022, created_at := 7 }]

/-- Witness for C4: page size 1 over the three-record dataset. -/
theorem pagination_completeness_witness :
    ∃ out, paginateChain paginationDb (fun _ => true) 1 false = some out ∧
      out.Perm (paginationDb.filter (fun _ => true)) ∧ out.Nodup :=
  pagination_completeness paginationDb (fun _ => true) 1 (by decide) (by decide)
    (by decide)
